import Mathlib

/-!
# Verification of the OcrAnalysis2 geometric mark-detection engine

Shallow embedding, in Lean 4, of the geometric core of the repository:

* the least-squares crop-rectangle solver (`solveCropRectFromMatches`,
  `src/create_relative_map.cpp`),
* the relative-coordinate mapper (`createRelativeMap`,
  `src/create_relative_map.cpp`),
* the rectangle reconstructor inside `extractPDFElements`
  (`src/OCRAnalysis.cpp`),
* the bleed-mark classifier and crop-mark detector of `stripBleedMarks`
  (`src/OCRAnalysis.cpp`),
* the position comparator of `sortByPosition` (`src/OCRAnalysis.cpp`).

IEEE doubles are modelled as exact rationals (`ℚ`) where the code is pure
rational arithmetic, and as real numbers (`ℝ`) where the code calls
trigonometric functions (`atan2`).  `cv::Rect` integer fields are embedded
into the same number type as the surrounding arithmetic.
-/

namespace OcrAnalysis

/-! ## Least-squares crop-rectangle solver (`create_relative_map.cpp`) -/

/-- A matched pair: a `RelativeElement` centre and its corresponding OCR word
centre, as in `struct MatchedPair` of `create_relative_map.cpp`. -/
structure MatchedPair where
  relCentreX : ℚ
  relCentreY : ℚ
  ocrCentreX : ℚ
  ocrCentreY : ℚ
  deriving DecidableEq, Repr

/-- Failure cases of the solver.  The C++ function returns `false` after
printing a diagnostic; the spec names the degenerate-determinant case
`SingularLinearSystem`. -/
inductive SolveError where
  | TooFewMatches
  | SingularLinearSystem
  | CropTooSmall
  deriving DecidableEq, Repr

/-- The solved crop rectangle, before the final rounding into `cv::Rect`. -/
structure SolvedCrop where
  cropX : ℚ
  cropWidth : ℚ
  cropY : ℚ
  cropHeight : ℚ
  deriving DecidableEq, Repr

/-- `n` of `solveCropRectFromMatches`: the number of matches, as a rational. -/
def nQ (ms : List MatchedPair) : ℚ := ms.length

/-- `sumRelX` accumulated by the loop of `solveCropRectFromMatches`. -/
def sumRelX (ms : List MatchedPair) : ℚ :=
  (ms.map (fun m => m.relCentreX)).sum

/-- `sumRelX2` accumulated by the loop of `solveCropRectFromMatches`. -/
def sumRelX2 (ms : List MatchedPair) : ℚ :=
  (ms.map (fun m => m.relCentreX * m.relCentreX)).sum

/-- `sumOcrX` accumulated by the loop of `solveCropRectFromMatches`. -/
def sumOcrX (ms : List MatchedPair) : ℚ :=
  (ms.map (fun m => m.ocrCentreX)).sum

/-- `sumRelXOcrX` accumulated by the loop of `solveCropRectFromMatches`. -/
def sumRelXOcrX (ms : List MatchedPair) : ℚ :=
  (ms.map (fun m => m.relCentreX * m.ocrCentreX)).sum

/-- `sumRelY` accumulated by the loop of `solveCropRectFromMatches`. -/
def sumRelY (ms : List MatchedPair) : ℚ :=
  (ms.map (fun m => m.relCentreY)).sum

/-- `sumRelY2` accumulated by the loop of `solveCropRectFromMatches`. -/
def sumRelY2 (ms : List MatchedPair) : ℚ :=
  (ms.map (fun m => m.relCentreY * m.relCentreY)).sum

/-- `sumOcrY` accumulated by the loop of `solveCropRectFromMatches`. -/
def sumOcrY (ms : List MatchedPair) : ℚ :=
  (ms.map (fun m => m.ocrCentreY)).sum

/-- `sumRelYOcrY` accumulated by the loop of `solveCropRectFromMatches`. -/
def sumRelYOcrY (ms : List MatchedPair) : ℚ :=
  (ms.map (fun m => m.relCentreY * m.ocrCentreY)).sum

/-- The singularity threshold `1e-10` of the C++ code, as an exact rational. -/
def detEps : ℚ := 1 / 10000000000

/-- `detX = sumRelX2 * n - sumRelX * sumRelX`. -/
def detX (ms : List MatchedPair) : ℚ :=
  sumRelX2 ms * nQ ms - sumRelX ms * sumRelX ms

/-- `detY = sumRelY2 * n - sumRelY * sumRelY`. -/
def detY (ms : List MatchedPair) : ℚ :=
  sumRelY2 ms * nQ ms - sumRelY ms * sumRelY ms

/-- `cropWidth = (sumRelXOcrX * n - sumRelX * sumOcrX) / detX`. -/
def solvedCropWidth (ms : List MatchedPair) : ℚ :=
  (sumRelXOcrX ms * nQ ms - sumRelX ms * sumOcrX ms) /
    detX ms

/-- `cropX = (sumRelX2 * sumOcrX - sumRelX * sumRelXOcrX) / detX`. -/
def solvedCropX (ms : List MatchedPair) : ℚ :=
  (sumRelX2 ms * sumOcrX ms - sumRelX ms * sumRelXOcrX ms) /
    detX ms

/-- `cropHeight = (sumRelYOcrY * n - sumRelY * sumOcrY) / detY`. -/
def solvedCropHeight (ms : List MatchedPair) : ℚ :=
  (sumRelYOcrY ms * nQ ms - sumRelY ms * sumOcrY ms) /
    detY ms

/-- `cropY = (sumRelY2 * sumOcrY - sumRelY * sumRelYOcrY) / detY`. -/
def solvedCropY (ms : List MatchedPair) : ℚ :=
  (sumRelY2 ms * sumOcrY ms - sumRelY ms * sumRelYOcrY ms) /
    detY ms

/-- `solveCropRectFromMatches` of `create_relative_map.cpp` (lines 113-195):
fewer than 2 matches are rejected, then the two independent 2x2 normal-equation
systems for `ocr = rel * size + offset` are solved by Cramer's rule, rejecting
a determinant whose absolute value is below `1e-10`, and finally a solved box
with either dimension below 10 is rejected.  The C++ function reports failure
by returning `false`; the distinct exits are modelled by `SolveError`. -/
def solveCropRectFromMatches (ms : List MatchedPair) :
    Except SolveError SolvedCrop :=
  if ms.length < 2 then .error .TooFewMatches
  else if |detX ms| < detEps then .error .SingularLinearSystem
  else if |detY ms| < detEps then .error .SingularLinearSystem
  else if solvedCropWidth ms < 10 ∨ solvedCropHeight ms < 10 then
    .error .CropTooSmall
  else
    .ok ⟨solvedCropX ms, solvedCropWidth ms,
         solvedCropY ms, solvedCropHeight ms⟩

/-- The squared per-match deviation; the C++ residual loop prints
`sqrt` of this value for each match. -/
def residualSq (w x h y : ℚ) (m : MatchedPair) : ℚ :=
  (m.relCentreX * w + x - m.ocrCentreX) * (m.relCentreX * w + x - m.ocrCentreX) +
    (m.relCentreY * h + y - m.ocrCentreY) * (m.relCentreY * h + y - m.ocrCentreY)

/-- The three synthetic matches of the spec's least-squares test, exactly
consistent with `cropWidth=800, cropHeight=600, cropX=50, cropY=20`. -/
def demoMatches : List MatchedPair :=
  [⟨0, 0, 50, 20⟩, ⟨1/2, 1/2, 450, 320⟩, ⟨1, 1, 850, 620⟩]

/-- Summing a function that is constantly `c` over a list yields
`length * c`. -/
theorem sum_map_const_of_forall {l : List MatchedPair} {f : MatchedPair → ℚ}
    {c : ℚ} (h : ∀ m ∈ l, f m = c) : (l.map f).sum = l.length * c := by
  induction l with
  | nil => simp
  | cons a t ih =>
    simp only [List.map_cons, List.sum_cons, List.length_cons]
    rw [h a (by simp), ih (fun m hm => h m (by simp [hm]))]
    push_cast
    ring

/-- If every match has the same `relCentreX`, the X normal-equation
determinant vanishes exactly. -/
theorem detX_eq_zero_of_const {ms : List MatchedPair} {c : ℚ}
    (h : ∀ m ∈ ms, m.relCentreX = c) : detX ms = 0 := by
  unfold detX sumRelX2 sumRelX nQ
  rw [sum_map_const_of_forall (f := fun m => m.relCentreX * m.relCentreX)
        (c := c * c) (fun m hm => by simp only []; rw [h m hm]),
      sum_map_const_of_forall (f := fun m => m.relCentreX) (c := c) h]
  ring

/-- If every match has the same `relCentreY`, the Y normal-equation
determinant vanishes exactly. -/
theorem detY_eq_zero_of_const {ms : List MatchedPair} {c : ℚ}
    (h : ∀ m ∈ ms, m.relCentreY = c) : detY ms = 0 := by
  unfold detY sumRelY2 sumRelY nQ
  rw [sum_map_const_of_forall (f := fun m => m.relCentreY * m.relCentreY)
        (c := c * c) (fun m hm => by simp only []; rw [h m hm]),
      sum_map_const_of_forall (f := fun m => m.relCentreY) (c := c) h]
  ring

/-- C7: for 2 or more matches that all share an identical `relativeX` (or,
symmetrically, an identical `relativeY`), the corresponding normal-equation
determinant is exactly zero, hence below the `1e-10` threshold, and the
solver fails with `SingularLinearSystem` without producing a crop
rectangle. -/
theorem solveCropRect_degenerate_singular (ms : List MatchedPair) (c : ℚ)
    (hlen : 2 ≤ ms.length)
    (hdeg : (∀ m ∈ ms, m.relCentreX = c) ∨ (∀ m ∈ ms, m.relCentreY = c)) :
    solveCropRectFromMatches ms = .error .SingularLinearSystem := by
  unfold solveCropRectFromMatches
  rw [if_neg (by omega : ¬ms.length < 2)]
  rcases hdeg with h | h
  · rw [if_pos (by rw [detX_eq_zero_of_const h]; norm_num [detEps])]
  · by_cases hx : |detX ms| < detEps
    · rw [if_pos hx]
    · rw [if_neg hx,
        if_pos (by rw [detY_eq_zero_of_const h]; norm_num [detEps])]

/-- Witness for C7: two matches both at `relativeX = 1/2` are rejected as
`SingularLinearSystem`. -/
theorem solveCropRect_degenerate_singular_witness :
    solveCropRectFromMatches [⟨1/2, 0, 5, 5⟩, ⟨1/2, 1, 7, 8⟩] =
      .error .SingularLinearSystem :=
  solveCropRect_degenerate_singular [⟨1/2, 0, 5, 5⟩, ⟨1/2, 1, 7, 8⟩] (1/2)
    (by simp) (Or.inl (by intro m hm; fin_cases hm <;> rfl))

/-- C6: whenever the solver succeeds, the returned `(cropWidth, cropX)` and
`(cropHeight, cropY)` satisfy the two 2-parameter normal-equation systems of
the ordinary-least-squares fit `ocr = rel * size + offset` (whose solution is
unique since the determinants are nonzero on the success path); and on the
spec's three synthetic matches consistent with `cropWidth=800`,
`cropHeight=600`, `cropX=50`, `cropY=20` it recovers these four values
exactly, with every squared residual equal to zero. -/
theorem solveCropRect_ols_and_demo :
    (∀ (ms : List MatchedPair) (r : SolvedCrop),
        solveCropRectFromMatches ms = .ok r →
        (sumRelX2 ms * r.cropWidth + sumRelX ms * r.cropX = sumRelXOcrX ms ∧
         sumRelX ms * r.cropWidth + nQ ms * r.cropX = sumOcrX ms) ∧
        (sumRelY2 ms * r.cropHeight + sumRelY ms * r.cropY = sumRelYOcrY ms ∧
         sumRelY ms * r.cropHeight + nQ ms * r.cropY = sumOcrY ms)) ∧
    solveCropRectFromMatches demoMatches = .ok ⟨50, 800, 20, 600⟩ ∧
    (∀ m ∈ demoMatches, residualSq 800 50 600 20 m = 0) := by
  refine ⟨?_, ?_, ?_⟩
  · intro ms r h
    unfold solveCropRectFromMatches at h
    split_ifs at h with h1 h2 h3 h4
    have hx : detX ms ≠ 0 := fun h0 => h2 (by rw [h0]; norm_num [detEps])
    have hy : detY ms ≠ 0 := fun h0 => h3 (by rw [h0]; norm_num [detEps])
    have hr : r = ⟨solvedCropX ms, solvedCropWidth ms,
        solvedCropY ms, solvedCropHeight ms⟩ := by
      cases h; rfl
    subst hr
    refine ⟨⟨?_, ?_⟩, ?_, ?_⟩ <;>
      · simp only [solvedCropX, solvedCropWidth, solvedCropY, solvedCropHeight]
        field_simp
        unfold detX detY at *
        ring
  · norm_num [solveCropRectFromMatches, detX, detY, sumRelX, sumRelX2, sumOcrX,
      sumRelXOcrX, sumRelY, sumRelY2, sumOcrY, sumRelYOcrY, nQ, demoMatches,
      detEps, solvedCropWidth, solvedCropX, solvedCropHeight, solvedCropY, abs]
  · intro m hm
    fin_cases hm <;> norm_num [residualSq]

/-- Witness for C6: the normal equations instantiated on the three synthetic
matches and the solver's actual output there. -/
theorem solveCropRect_ols_and_demo_witness :
    (sumRelX2 demoMatches * (800 : ℚ) + sumRelX demoMatches * 50 =
        sumRelXOcrX demoMatches ∧
      sumRelX demoMatches * 800 + nQ demoMatches * 50 = sumOcrX demoMatches) ∧
    (sumRelY2 demoMatches * (600 : ℚ) + sumRelY demoMatches * 20 =
        sumRelYOcrY demoMatches ∧
      sumRelY demoMatches * 600 + nQ demoMatches * 20 = sumOcrY demoMatches) :=
  solveCropRect_ols_and_demo.1 demoMatches ⟨50, 800, 20, 600⟩
    (solveCropRect_ols_and_demo.2.1)

/-! ## Geometric data model (`OCRAnalysis.hpp`)

The coordinate fields of the C++ structures are IEEE doubles (or `cv::Rect`
ints for text bounding boxes); they are embedded into a parameter field `α`
(`ℚ` for the purely rational algorithms, `ℝ` for the trigonometric crop-mark
detector).  Fields never read by the modelled algorithms (`length`,
`lineWidth` of `PDFLine`, OCR confidence, orientation, the full text payload
of `PDFElements`, timing fields) are omitted. -/

/-- `cv::Rect`: the bounding box of a text region. -/
structure CvRect (α : Type) where
  x : α
  y : α
  width : α
  height : α
  deriving DecidableEq, Repr

/-- `TextRegion` of `OCRAnalysis.hpp` (the fields read or copied by
`createRelativeMap`). -/
structure TextRegion (α : Type) where
  boundingBox : CvRect α
  text : String
  fontName : String
  fontSize : α
  isBold : Bool
  isItalic : Bool
  deriving DecidableEq, Repr

/-- `PDFEmbeddedImage` of `OCRAnalysis.hpp` (geometry fields only). -/
structure PDFEmbeddedImage (α : Type) where
  x : α
  y : α
  displayWidth : α
  displayHeight : α
  deriving DecidableEq, Repr

/-- `PDFRectangle` of `OCRAnalysis.hpp`. -/
structure PDFRectangle (α : Type) where
  pageNumber : ℤ
  x : α
  y : α
  width : α
  height : α
  lineWidth : α
  filled : Bool
  stroked : Bool
  deriving DecidableEq, Repr

/-- `PDFLine` of `OCRAnalysis.hpp` (the fields read by the modelled
algorithms). -/
structure PDFLine (α : Type) where
  pageNumber : ℤ
  x1 : α
  y1 : α
  x2 : α
  y2 : α
  isHorizontal : Bool
  isVertical : Bool
  deriving DecidableEq, Repr

/-- `PDFElements` of `OCRAnalysis.hpp` (the fields read or written by the
modelled algorithms). -/
structure PDFElements (α : Type) where
  success : Bool
  errorMessage : String
  textLines : List (TextRegion α)
  images : List (PDFEmbeddedImage α)
  rectangles : List (PDFRectangle α)
  graphicLines : List (PDFLine α)
  rectangleCount : ℤ
  graphicLineCount : ℤ
  linesBoundingBoxX : α
  linesBoundingBoxY : α
  linesBoundingBoxWidth : α
  linesBoundingBoxHeight : α
  pageX : α
  pageY : α
  pageWidth : α
  pageHeight : α
  deriving DecidableEq, Repr

/-! ## Relative layout mapper (`createRelativeMap`, `create_relative_map.cpp`)

Only the element-building part is modelled (the `markToFile` OCR alignment
step does not change the returned bounds or element list).  The unused `dpi`
parameter is dropped. -/

/-- `RenderBoundsMode` of `OCRAnalysis.hpp`. -/
inductive RenderBoundsMode where
  | USE_CROP_MARKS
  | USE_LARGEST_RECTANGLE
  deriving DecidableEq, Repr

/-- The payload type tag of a `RelativeElement`. -/
inductive RelType where
  | TEXT
  | IMAGE
  deriving DecidableEq, Repr

/-- `RelativeElement` as built by `createRelativeMap` (struct declared in the
repository's full header, reconstructed from its uses in
`create_relative_map.cpp`). -/
structure RelativeElement where
  type : RelType
  relativeX : ℚ
  relativeY : ℚ
  relativeWidth : ℚ
  relativeHeight : ℚ
  text : String
  fontName : String
  fontSize : ℚ
  isBold : Bool
  isItalic : Bool
  deriving DecidableEq, Repr

/-- `RelativeMapResult` as built by `createRelativeMap` (struct declared in
the repository's full header, reconstructed from its uses). -/
structure RelativeMapResult where
  success : Bool
  errorMessage : String
  boundsX : ℚ
  boundsY : ℚ
  boundsWidth : ℚ
  boundsHeight : ℚ
  elements : List RelativeElement
  deriving DecidableEq, Repr

/-- The largest-area rectangle scan of `createRelativeMap`
(`largestArea` starts at `0`, strict `>` comparison). -/
def largestRectangle (rects : List (PDFRectangle ℚ)) :
    Option (PDFRectangle ℚ) :=
  (rects.foldl
    (fun acc r =>
      if r.width * r.height > acc.1 then (r.width * r.height, some r) else acc)
    ((0 : ℚ), none)).2

/-- The largest-area embedded-image scan of `createRelativeMap`
(`largestImageArea` starts at `0.0`, strict `>` comparison). -/
def largestImage (imgs : List (PDFEmbeddedImage ℚ)) :
    Option (PDFEmbeddedImage ℚ) :=
  (imgs.foldl
    (fun acc i =>
      if i.displayWidth * i.displayHeight > acc.1 then
        (i.displayWidth * i.displayHeight, some i)
      else acc)
    ((0 : ℚ), none)).2

/-- Reference-bounds selection of `createRelativeMap`
(`create_relative_map.cpp` lines 198-298), returning
`(minX, minY, maxX, maxY)` or the error message of the C++ code.  The
`DBL_MAX` / `lowest()` initialised min/max folds of the fallback branch are
modelled by `min?`/`max?` plus an explicit emptiness test (the C++
code detects emptiness via `minX == DBL_MAX`). -/
def relativeMapBounds (elements : PDFElements ℚ)
    (boundsMode : RenderBoundsMode) : Except String (ℚ × ℚ × ℚ × ℚ) :=
  match boundsMode with
  | .USE_LARGEST_RECTANGLE =>
    match largestRectangle elements.rectangles with
    | none =>
      if elements.images ≠ [] then
        match largestImage elements.images with
        | some img =>
          .ok (img.x, img.y, img.x + img.displayWidth,
               img.y + img.displayHeight)
        | none => .error "Could not find valid rectangle or image"
      else .error "No rectangles or images found for USE_LARGEST_RECTANGLE mode"
    | some r =>
      .ok (r.x, elements.pageHeight - (r.y + r.height), r.x + r.width,
           elements.pageHeight - r.y)
  | .USE_CROP_MARKS =>
    if elements.linesBoundingBoxWidth > 0 ∧ elements.linesBoundingBoxHeight > 0
    then
      .ok (elements.linesBoundingBoxX, elements.linesBoundingBoxY,
           elements.linesBoundingBoxX + elements.linesBoundingBoxWidth,
           elements.linesBoundingBoxY + elements.linesBoundingBoxHeight)
    else if elements.textLines = [] ∧ elements.images = [] then
      .error "No elements found to create relative map"
    else
      .ok (((elements.textLines.map (fun t => t.boundingBox.x)) ++
              (elements.images.map (fun i => i.x))).min?.getD 0,
           ((elements.textLines.map (fun t => t.boundingBox.y)) ++
              (elements.images.map (fun i => i.y))).min?.getD 0,
           ((elements.textLines.map
                (fun t => t.boundingBox.x + t.boundingBox.width)) ++
              (elements.images.map (fun i => i.x + i.displayWidth))).max?.getD 0,
           ((elements.textLines.map
                (fun t => t.boundingBox.y + t.boundingBox.height)) ++
              (elements.images.map (fun i => i.y + i.displayHeight))).max?.getD 0)

/-- The underscore-skip test of `createRelativeMap`: non-empty text more than
half of whose characters are underscores is dropped. -/
def isMostlyUnderscores (s : String) : Bool :=
  !s.isEmpty && (s.toList.count '_' > s.length / 2)

/-- Conversion of one text element to a `RelativeElement`
(`create_relative_map.cpp` lines 322-347): centre coordinates, Y-axis flip
from bottom-left to top-left origin, normalisation by the bounds. -/
def toRelativeText (minX minY boundsWidth boundsHeight : ℚ)
    (t : TextRegion ℚ) : RelativeElement :=
  let topLeftY := boundsHeight -
    (t.boundingBox.y - minY + t.boundingBox.height)
  { type := .TEXT
    relativeX := (t.boundingBox.x - minX + t.boundingBox.width / 2) /
      boundsWidth
    relativeY := (topLeftY + t.boundingBox.height / 2) / boundsHeight
    relativeWidth := t.boundingBox.width / boundsWidth
    relativeHeight := t.boundingBox.height / boundsHeight
    text := t.text
    fontName := t.fontName
    fontSize := t.fontSize
    isBold := t.isBold
    isItalic := t.isItalic }

/-- Conversion of one embedded image to a `RelativeElement`
(`create_relative_map.cpp` lines 352-369); the text payload fields keep
their C++ default initialisation. -/
def toRelativeImage (minX minY boundsWidth boundsHeight : ℚ)
    (img : PDFEmbeddedImage ℚ) : RelativeElement :=
  let topLeftY := boundsHeight - (img.y - minY + img.displayHeight)
  { type := .IMAGE
    relativeX := (img.x - minX + img.displayWidth / 2) / boundsWidth
    relativeY := (topLeftY + img.displayHeight / 2) / boundsHeight
    relativeWidth := img.displayWidth / boundsWidth
    relativeHeight := img.displayHeight / boundsHeight
    text := ""
    fontName := ""
    fontSize := 0
    isBold := false
    isItalic := false }

/-- `createRelativeMap` of `create_relative_map.cpp`, element-building part:
bounds selection, underscore filtering, and conversion of all text and image
elements to relative coordinates. -/
def createRelativeMap (elements : PDFElements ℚ)
    (boundsMode : RenderBoundsMode) : RelativeMapResult :=
  match relativeMapBounds elements boundsMode with
  | .error msg =>
    { success := false, errorMessage := msg, boundsX := 0, boundsY := 0,
      boundsWidth := 0, boundsHeight := 0, elements := [] }
  | .ok (minX, minY, maxX, maxY) =>
    let bw := maxX - minX
    let bh := maxY - minY
    { success := true
      errorMessage := ""
      boundsX := minX
      boundsY := minY
      boundsWidth := bw
      boundsHeight := bh
      elements :=
        ((elements.textLines.filter
            (fun t => !isMostlyUnderscores t.text)).map
          (toRelativeText minX minY bw bh)) ++
        (elements.images.map (toRelativeImage minX minY bw bh)) }

/-- Modelled from the spec: the inverse conversion of the round-trip property
("converting a `TextElement` to `RelativeElement` and back using the same
bounds must recover the original bounding box").  No inverse conversion
exists in the sources, so this is the arithmetic inverse of the
centre-and-flip mapping of `createRelativeMap`, spelt from the spec's
description of the forward direction. -/
def fromRelativeText (minX minY boundsWidth boundsHeight : ℚ)
    (e : RelativeElement) : CvRect ℚ :=
  let w := e.relativeWidth * boundsWidth
  let h := e.relativeHeight * boundsHeight
  let topLeftY := e.relativeY * boundsHeight - h / 2
  { x := minX + e.relativeX * boundsWidth - w / 2
    y := minY + boundsHeight - topLeftY - h
    width := w
    height := h }

/-- C8: for positive reference bounds and a text bounding box of positive
width and height, converting to relative coordinates (with the Y-axis flip of
`createRelativeMap`) and back with the same bounds recovers the original
bounding box exactly — in particular within the spec's `1e-6` relative
error. -/
theorem toRelative_fromRelative_roundtrip (minX minY bw bh : ℚ)
    (t : TextRegion ℚ) (hbw : 0 < bw) (hbh : 0 < bh)
    (hw : 0 < t.boundingBox.width) (hh : 0 < t.boundingBox.height) :
    fromRelativeText minX minY bw bh (toRelativeText minX minY bw bh t) =
      t.boundingBox := by
  obtain ⟨⟨x, y, w, h⟩, _, _, _, _, _⟩ := t
  simp only [fromRelativeText, toRelativeText, CvRect.mk.injEq]
  refine ⟨?_, ?_, ?_, ?_⟩ <;> field_simp <;> ring

/-- Witness for C8: the round trip on a concrete box inside concrete
bounds. -/
theorem toRelative_fromRelative_roundtrip_witness :
    fromRelativeText 5 7 200 300
        (toRelativeText 5 7 200 300
          ⟨⟨30, 40, 50, 60⟩, "t", "f", 12, false, false⟩) =
      ⟨30, 40, 50, 60⟩ :=
  toRelative_fromRelative_roundtrip 5 7 200 300
    ⟨⟨30, 40, 50, 60⟩, "t", "f", 12, false, false⟩
    (by norm_num) (by norm_num) (by norm_num) (by norm_num)

/-- A `PDFElements` value whose `linesBoundingBox` reference bounds
`(0,0)-(100,100)` do not contain its single text element at `x = 200`. -/
def outOfBoundsElements : PDFElements ℚ :=
  { success := true, errorMessage := ""
    textLines := [⟨⟨200, 0, 10, 10⟩, "hello", "Helvetica", 12, false, false⟩]
    images := [], rectangles := [], graphicLines := []
    rectangleCount := 0, graphicLineCount := 0
    linesBoundingBoxX := 0, linesBoundingBoxY := 0
    linesBoundingBoxWidth := 100, linesBoundingBoxHeight := 100
    pageX := 0, pageY := 0, pageWidth := 500, pageHeight := 700 }

/-- Counterexample to C9: `createRelativeMap` happily emits elements whose
`relativeX` exceeds 1 when the element lies outside the reference bounds
(the code comments even rely on such out-of-range elements for OCR
matching). -/
theorem createRelativeMap_relativeX_exceeds_one :
    ((createRelativeMap outOfBoundsElements .USE_CROP_MARKS).elements.map
        (fun e => e.relativeX)) = [41 / 20] ∧ ¬((41 : ℚ) / 20 ≤ 1) := by
  constructor
  · have h1 : isMostlyUnderscores "hello" = false := by decide
    norm_num [createRelativeMap, relativeMapBounds, outOfBoundsElements,
      toRelativeText, h1, List.filter]
  · norm_num

/-- C9 (amended): elements whose bounding box lies inside the chosen
reference bounds and has positive width and height are mapped to relative
coordinates with `relativeX, relativeY ∈ [0,1]` and
`relativeWidth, relativeHeight ∈ (0,1]` (both for text and for images), and
every element produced by `createRelativeMap` is the conversion of one of
the input text lines or images against the returned bounds; elements outside
the bounds may leave the unit square. -/
theorem createRelativeMap_range_invariants :
    (∀ (minX minY bw bh : ℚ) (t : TextRegion ℚ),
        0 < bw → 0 < bh →
        0 < t.boundingBox.width → 0 < t.boundingBox.height →
        minX ≤ t.boundingBox.x →
        t.boundingBox.x + t.boundingBox.width ≤ minX + bw →
        minY ≤ t.boundingBox.y →
        t.boundingBox.y + t.boundingBox.height ≤ minY + bh →
        (0 ≤ (toRelativeText minX minY bw bh t).relativeX ∧
          (toRelativeText minX minY bw bh t).relativeX ≤ 1) ∧
        (0 ≤ (toRelativeText minX minY bw bh t).relativeY ∧
          (toRelativeText minX minY bw bh t).relativeY ≤ 1) ∧
        (0 < (toRelativeText minX minY bw bh t).relativeWidth ∧
          (toRelativeText minX minY bw bh t).relativeWidth ≤ 1) ∧
        (0 < (toRelativeText minX minY bw bh t).relativeHeight ∧
          (toRelativeText minX minY bw bh t).relativeHeight ≤ 1)) ∧
    (∀ (minX minY bw bh : ℚ) (i : PDFEmbeddedImage ℚ),
        0 < bw → 0 < bh →
        0 < i.displayWidth → 0 < i.displayHeight →
        minX ≤ i.x → i.x + i.displayWidth ≤ minX + bw →
        minY ≤ i.y → i.y + i.displayHeight ≤ minY + bh →
        (0 ≤ (toRelativeImage minX minY bw bh i).relativeX ∧
          (toRelativeImage minX minY bw bh i).relativeX ≤ 1) ∧
        (0 ≤ (toRelativeImage minX minY bw bh i).relativeY ∧
          (toRelativeImage minX minY bw bh i).relativeY ≤ 1) ∧
        (0 < (toRelativeImage minX minY bw bh i).relativeWidth ∧
          (toRelativeImage minX minY bw bh i).relativeWidth ≤ 1) ∧
        (0 < (toRelativeImage minX minY bw bh i).relativeHeight ∧
          (toRelativeImage minX minY bw bh i).relativeHeight ≤ 1)) ∧
    (∀ (elements : PDFElements ℚ) (mode : RenderBoundsMode)
        (e : RelativeElement),
        e ∈ (createRelativeMap elements mode).elements →
        (∃ t ∈ elements.textLines,
            e = toRelativeText (createRelativeMap elements mode).boundsX
              (createRelativeMap elements mode).boundsY
              (createRelativeMap elements mode).boundsWidth
              (createRelativeMap elements mode).boundsHeight t) ∨
        (∃ i ∈ elements.images,
            e = toRelativeImage (createRelativeMap elements mode).boundsX
              (createRelativeMap elements mode).boundsY
              (createRelativeMap elements mode).boundsWidth
              (createRelativeMap elements mode).boundsHeight i)) := by
  refine ⟨?_, ?_, ?_⟩
  · intro minX minY bw bh t hbw hbh hw hh hx1 hx2 hy1 hy2
    simp only [toRelativeText]
    refine ⟨⟨?_, ?_⟩, ⟨?_, ?_⟩, ⟨?_, ?_⟩, ⟨?_, ?_⟩⟩
    · exact div_nonneg (by linarith) hbw.le
    · rw [div_le_one hbw]; linarith
    · exact div_nonneg (by linarith) hbh.le
    · rw [div_le_one hbh]; linarith
    · exact div_pos hw hbw
    · rw [div_le_one hbw]; linarith
    · exact div_pos hh hbh
    · rw [div_le_one hbh]; linarith
  · intro minX minY bw bh i hbw hbh hw hh hx1 hx2 hy1 hy2
    simp only [toRelativeImage]
    refine ⟨⟨?_, ?_⟩, ⟨?_, ?_⟩, ⟨?_, ?_⟩, ⟨?_, ?_⟩⟩
    · exact div_nonneg (by linarith) hbw.le
    · rw [div_le_one hbw]; linarith
    · exact div_nonneg (by linarith) hbh.le
    · rw [div_le_one hbh]; linarith
    · exact div_pos hw hbw
    · rw [div_le_one hbw]; linarith
    · exact div_pos hh hbh
    · rw [div_le_one hbh]; linarith
  · intro elements mode e he
    rcases h : relativeMapBounds elements mode with msg | ⟨minX, minY, maxX, maxY⟩
    · simp [createRelativeMap, h] at he
    · simp only [createRelativeMap, h, List.mem_append, List.mem_map,
        List.mem_filter] at he ⊢
      rcases he with ⟨t, ⟨ht, _⟩, rfl⟩ | ⟨i, hi, rfl⟩
      · exact Or.inl ⟨t, ht, rfl⟩
      · exact Or.inr ⟨i, hi, rfl⟩

/-- Witness for C9 (amended): the invariants on a concrete contained text
box. -/
theorem createRelativeMap_range_invariants_witness :
    (0 ≤ (toRelativeText 0 0 100 100
        ⟨⟨10, 10, 20, 20⟩, "a", "f", 12, false, false⟩).relativeX ∧
      (toRelativeText 0 0 100 100
        ⟨⟨10, 10, 20, 20⟩, "a", "f", 12, false, false⟩).relativeX ≤ 1) ∧
    (0 ≤ (toRelativeText 0 0 100 100
        ⟨⟨10, 10, 20, 20⟩, "a", "f", 12, false, false⟩).relativeY ∧
      (toRelativeText 0 0 100 100
        ⟨⟨10, 10, 20, 20⟩, "a", "f", 12, false, false⟩).relativeY ≤ 1) ∧
    (0 < (toRelativeText 0 0 100 100
        ⟨⟨10, 10, 20, 20⟩, "a", "f", 12, false, false⟩).relativeWidth ∧
      (toRelativeText 0 0 100 100
        ⟨⟨10, 10, 20, 20⟩, "a", "f", 12, false, false⟩).relativeWidth ≤ 1) ∧
    (0 < (toRelativeText 0 0 100 100
        ⟨⟨10, 10, 20, 20⟩, "a", "f", 12, false, false⟩).relativeHeight ∧
      (toRelativeText 0 0 100 100
        ⟨⟨10, 10, 20, 20⟩, "a", "f", 12, false, false⟩).relativeHeight ≤ 1) :=
  createRelativeMap_range_invariants.1 0 0 100 100
    ⟨⟨10, 10, 20, 20⟩, "a", "f", 12, false, false⟩
    (by norm_num) (by norm_num) (by norm_num) (by norm_num)
    (by norm_num) (by norm_num) (by norm_num) (by norm_num)

/-! ## Position comparator of `sortByPosition` (`OCRAnalysis.cpp` 3386-3403) -/

/-- `RenderedElement` of `OCRAnalysis.hpp` (the two pixel-coordinate fields
read by the comparator; `pixelX`/`pixelY` are C++ `int`s). -/
structure RenderedElement where
  pixelX : ℤ
  pixelY : ℤ
  deriving DecidableEq, Repr

/-- The lambda passed to `std::sort` by `sortByPosition`: elements within the
5-pixel `Y_TOLERANCE` are ordered by X, all others by Y. -/
def positionLess (a b : RenderedElement) : Bool :=
  if |a.pixelY - b.pixelY| ≤ 5 then a.pixelX < b.pixelX
  else a.pixelY < b.pixelY

/-- C10 fails: the comparator of `sortByPosition` admits a 3-cycle
`a ≺ b ≺ c ≺ a` (Y values 10, 5, 0 chain within the 5-pixel tolerance
pairwise but not end-to-end), so it is not transitive, hence not a strict
weak ordering, and the `std::sort` precondition is violated on such
inputs. -/
theorem positionLess_not_strict_weak_order :
    positionLess ⟨0, 10⟩ ⟨1, 5⟩ = true ∧
    positionLess ⟨1, 5⟩ ⟨2, 0⟩ = true ∧
    positionLess ⟨2, 0⟩ ⟨0, 10⟩ = true ∧
    ¬ (∀ x y z : RenderedElement, positionLess x y = true →
        positionLess y z = true → positionLess x z = true) := by
  refine ⟨by decide, by decide, by decide, fun h => ?_⟩
  have h1 := h ⟨0, 10⟩ ⟨1, 5⟩ ⟨2, 0⟩ (by decide) (by decide)
  have h2 : positionLess ⟨0, 10⟩ ⟨2, 0⟩ = false := by decide
  rw [h1] at h2
  exact absurd h2 (by simp)

/-! ## Rectangle reconstructor (`extractPDFElements`, `OCRAnalysis.cpp`) -/

/-- All unordered pairs `(i, j)` with `i < j`, in the nested-loop order of
the C++ code (outer index ascending, inner index ascending from the outer
index plus one). -/
def allPairs {β : Type} : List β → List (β × β)
  | [] => []
  | x :: xs => (xs.map (fun y => (x, y))) ++ allPairs xs

/-- The `horizontalLines` partition of `extractPDFElements` (lines flagged
`isHorizontal`). -/
def horizontalLinesOf (lines : List (PDFLine ℚ)) : List (PDFLine ℚ) :=
  lines.filter (fun l => l.isHorizontal)

/-- The `verticalLines` partition of `extractPDFElements` (the `else if`
branch: not horizontal but flagged `isVertical`). -/
def verticalLinesOf (lines : List (PDFLine ℚ)) : List (PDFLine ℚ) :=
  lines.filter (fun l => !l.isHorizontal && l.isVertical)

/-- The "simple case" of the rectangle reconstructor (`OCRAnalysis.cpp`
1480-1515): with exactly 2 horizontal and 2 vertical lines on the same page,
a rectangle is built from the four midpoints and appended unconditionally
(no duplicate check on this path). -/
def simpleRectFromFourLines (hs vs : List (PDFLine ℚ)) :
    Option (PDFRectangle ℚ) :=
  match hs, vs with
  | [h1, h2], [v1, v2] =>
    if h1.pageNumber = h2.pageNumber ∧ h1.pageNumber = v1.pageNumber ∧
        h1.pageNumber = v2.pageNumber then
      let y1 := (h1.y1 + h1.y2) / 2
      let y2 := (h2.y1 + h2.y2) / 2
      let x1 := (v1.x1 + v1.x2) / 2
      let x2 := (v2.x1 + v2.x2) / 2
      some { pageNumber := h1.pageNumber, x := min x1 x2, y := min y1 y2,
             width := max x1 x2 - min x1 x2, height := max y1 y2 - min y1 y2,
             lineWidth := 1, filled := false, stroked := true }
    else none
  | _, _ => none

/-- One iteration of the general 2-horizontal + 2-vertical rectangle search
(`OCRAnalysis.cpp` 1517-1576): midpoint separation of at least 10pt in each
axis, then the four span checks with a 10pt tolerance. -/
def rectCandidateFromLinePairs (hp vp : PDFLine ℚ × PDFLine ℚ) :
    Option (PDFRectangle ℚ) :=
  if hp.1.pageNumber ≠ hp.2.pageNumber then none
  else
    let y1 := (hp.1.y1 + hp.1.y2) / 2
    let y2 := (hp.2.y1 + hp.2.y2) / 2
    if |y1 - y2| < 10 then none
    else if vp.1.pageNumber ≠ hp.1.pageNumber then none
    else
      let x1 := (vp.1.x1 + vp.1.x2) / 2
      let x2 := (vp.2.x1 + vp.2.x2) / 2
      if |x1 - x2| < 10 then none
      else
        let minX := min x1 x2
        let maxX := max x1 x2
        let minY := min y1 y2
        let maxY := max y1 y2
        let h1Spans := min hp.1.x1 hp.1.x2 ≤ minX + 10 ∧ max hp.1.x1 hp.1.x2 ≥ maxX - 10
        let h2Spans := min hp.2.x1 hp.2.x2 ≤ minX + 10 ∧ max hp.2.x1 hp.2.x2 ≥ maxX - 10
        let v1Spans := min vp.1.y1 vp.1.y2 ≤ minY + 10 ∧ max vp.1.y1 vp.1.y2 ≥ maxY - 10
        let v2Spans := min vp.2.y1 vp.2.y2 ≤ minY + 10 ∧ max vp.2.y1 vp.2.y2 ≥ maxY - 10
        if h1Spans ∧ h2Spans ∧ v1Spans ∧ v2Spans then
          some { pageNumber := hp.1.pageNumber, x := minX, y := minY,
                 width := maxX - minX, height := maxY - minY,
                 lineWidth := 1, filled := false, stroked := true }
        else none

/-- The duplicate check of the general search path (`OCRAnalysis.cpp`
1586-1597): an existing rectangle on the same page matches when `x`, `y`,
`width` and `height` each differ by less than 5pt. -/
def isDuplicateRect (existing : List (PDFRectangle ℚ))
    (r : PDFRectangle ℚ) : Bool :=
  existing.any (fun ex =>
    decide (ex.pageNumber = r.pageNumber) && decide (|ex.x - r.x| < 5) &&
    decide (|ex.y - r.y| < 5) && decide (|ex.width - r.width| < 5) &&
    decide (|ex.height - r.height| < 5))

/-- The rectangle-reconstruction portion of `extractPDFElements`
(`OCRAnalysis.cpp` 1461-1605): directly-extracted rectangles first, then the
unconditional simple-case rectangle, then the general pair search appending
each non-duplicate candidate. -/
def reconstructRectangles (directRects : List (PDFRectangle ℚ))
    (lines : List (PDFLine ℚ)) : List (PDFRectangle ℚ) :=
  let hs := horizontalLinesOf lines
  let vs := verticalLinesOf lines
  let afterSimple :=
    match simpleRectFromFourLines hs vs with
    | some r => directRects ++ [r]
    | none => directRects
  (allPairs hs).foldl
    (fun acc hp =>
      (allPairs vs).foldl
        (fun acc2 vp =>
          match rectCandidateFromLinePairs hp vp with
          | some r => if isDuplicateRect acc2 r then acc2 else acc2 ++ [r]
          | none => acc2)
        acc)
    afterSimple


/-- The four line segments forming the exact rectangle `(0,0)-(100,50)`:
two horizontal lines at `y=0` and `y=50` spanning `x ∈ [0,100]`, two
vertical lines at `x=0` and `x=100` spanning `y ∈ [0,50]`. -/
def rectLines : List (PDFLine ℚ) :=
  [⟨1, 0, 0, 100, 0, true, false⟩,
   ⟨1, 0, 50, 100, 50, true, false⟩,
   ⟨1, 0, 0, 0, 50, false, true⟩,
   ⟨1, 100, 0, 100, 50, false, true⟩]

/-- C3: with no directly-extracted rectangle the reconstructor emits the
synthetic `Rectangle{0,0,100,50}` exactly once (the simple 2+2 path emits it
and the general path then rejects its own candidate as a duplicate); but
when the same rectangle is already present as a directly-extracted
rectangle, the simple 2+2 path appends a second copy without any duplicate
check, so the combined list contains the rectangle twice — contradicting
the claimed deduplication. -/
theorem reconstructRectangles_simple_path_duplicates :
    reconstructRectangles [] rectLines =
      [⟨1, 0, 0, 100, 50, 1, false, true⟩] ∧
    reconstructRectangles [⟨1, 0, 0, 100, 50, 1, false, true⟩] rectLines =
      [⟨1, 0, 0, 100, 50, 1, false, true⟩,
       ⟨1, 0, 0, 100, 50, 1, false, true⟩] ∧
    (reconstructRectangles [⟨1, 0, 0, 100, 50, 1, false, true⟩]
        rectLines).count ⟨1, 0, 0, 100, 50, 1, false, true⟩ = 2 := by
  refine ⟨?_, ?_, ?_⟩ <;>
    norm_num [reconstructRectangles, horizontalLinesOf, verticalLinesOf,
      simpleRectFromFourLines, rectCandidateFromLinePairs, isDuplicateRect,
      allPairs, rectLines, List.filter, List.foldl, min_def, max_def,
      List.count_cons]

/-! ## Mark classifier: STEP 1 of `stripBleedMarks` (`OCRAnalysis.cpp`
3423-3560)

Generic over a linear ordered field so that the same translation serves the
exact-rational instantiation and the real-valued crop-mark pipeline.  The
C++ `std::set<int>` index sets are modelled as index lists (only membership
is ever used); the `processed[]` flags of the greedy grouping loop are
modelled by recursing on the unprocessed remainder. -/

/-- The element list paired with its C++ vector indices, starting at `i`. -/
def enumIdx {β : Type} : ℕ → List β → List (ℕ × β)
  | _, [] => []
  | i, x :: xs => (i, x) :: enumIdx (i + 1) xs

section MarkClassifier

variable {α : Type} [LinearOrderedField α]

/-- The same-horizontal-line test of the grouping loop:
`std::abs(rect1.y - rect2.y) < yTolerance` with `yTolerance = 2.0`. -/
def sameYRect (r1 r2 : PDFRectangle α) : Bool :=
  decide (|r1.y - r2.y| < 2)

/-- The greedy Y-grouping loop of STEP 1: the first unprocessed rectangle
seeds a group collecting every later rectangle within the Y tolerance of
the seed; the remainder is grouped recursively. -/
def clusters : List (ℕ × PDFRectangle α) → List (List (ℕ × PDFRectangle α))
  | [] => []
  | p :: rest =>
    (p :: rest.filter (fun q => sameYRect p.2 q.2)) ::
      clusters (rest.filter (fun q => !sameYRect p.2 q.2))
termination_by l => l.length
decreasing_by
  simp only [List.length_cons]
  exact Nat.lt_succ_of_le (List.length_filter_le _ rest)

/-- The edge test on a group: `groupY` is the Y of `group[0]` (the seed) and
the group is near an edge when `groupY < edgeMargin` or
`groupY > pageHeight - edgeMargin`, with `edgeMargin = 50.0`. -/
def isEdgeCluster (pageHeight : α) (g : List (ℕ × PDFRectangle α)) : Bool :=
  match g with
  | [] => false
  | p :: _ => decide (p.2.y < 50) || decide (p.2.y > pageHeight - 50)

/-- `rectangleGroups` of STEP 1: only groups of 2 or more rectangles that
are not near the page top or bottom edge are kept. -/
def rectangleGroups (pageHeight : α) (rects : List (PDFRectangle α)) :
    List (List (ℕ × PDFRectangle α)) :=
  (clusters (enumIdx 0 rects)).filter
    (fun g => decide (2 ≤ g.length) && !isEdgeCluster pageHeight g)

/-- `rectanglesToRemove`: the indices of every rectangle of every kept
group. -/
def rectanglesToRemove (pageHeight : α) (rects : List (PDFRectangle α)) :
    List ℕ :=
  ((rectangleGroups pageHeight rects).map (fun g => g.map Prod.fst)).flatten

/-- Whether one line is marked for removal on behalf of one group
(`OCRAnalysis.cpp` 3480-3542): lines near any of the four page corners
(corner margin `100.0`) are protected; otherwise the line's bounding box
must overlap the group's Y range and X range within the
`connectionTolerance` of `2.0`.  The group min/max folds (initialised from
`DBL_MAX`/`lowest()` in C++) are modelled by `min?`/`max?`; kept groups are
nonempty, so the defaults are never consulted. -/
def lineRemovedByGroup (pageWidth pageHeight : α)
    (g : List (ℕ × PDFRectangle α)) (line : PDFLine α) : Bool :=
  let minY := ((g.map (fun p => p.2.y)).min?).getD 0
  let maxY := ((g.map (fun p => p.2.y + p.2.height)).max?).getD 0
  let minX := ((g.map (fun p => p.2.x)).min?).getD 0
  let maxX := ((g.map (fun p => p.2.x + p.2.width)).max?).getD 0
  let lineMinX := min line.x1 line.x2
  let lineMaxX := max line.x1 line.x2
  let lineMinY := min line.y1 line.y2
  let lineMaxY := max line.y1 line.y2
  let nearTopLeftCorner := decide (lineMinX < 100) && decide (lineMinY < 100)
  let nearTopRightCorner :=
    decide (lineMaxX > pageWidth - 100) && decide (lineMinY < 100)
  let nearBottomLeftCorner :=
    decide (lineMinX < 100) && decide (lineMaxY > pageHeight - 100)
  let nearBottomRightCorner :=
    decide (lineMaxX > pageWidth - 100) && decide (lineMaxY > pageHeight - 100)
  if nearTopLeftCorner || nearTopRightCorner || nearBottomLeftCorner ||
      nearBottomRightCorner then false
  else
    let lineInYRange :=
      !(decide (lineMaxY < minY - 2) || decide (lineMinY > maxY + 2))
    if !lineInYRange then false
    else !(decide (lineMaxX < minX - 2) || decide (lineMinX > maxX + 2))

/-- `linesToRemove`: for every kept group, the indices of every line marked
for removal on its behalf. -/
def linesToRemove (pageWidth pageHeight : α) (rects : List (PDFRectangle α))
    (lines : List (PDFLine α)) : List ℕ :=
  ((rectangleGroups pageHeight rects).map (fun g =>
    ((enumIdx 0 lines).filter
      (fun p => lineRemovedByGroup pageWidth pageHeight g p.2)).map
      Prod.fst)).flatten

/-- `filteredRectangles`: the rectangles whose index was not marked. -/
def filteredRectangles (pageHeight : α) (rects : List (PDFRectangle α)) :
    List (PDFRectangle α) :=
  ((enumIdx 0 rects).filter
    (fun p => !(rectanglesToRemove pageHeight rects).contains p.1)).map
    Prod.snd

/-- `filteredLines`: the graphic lines whose index was not marked. -/
def filteredLines (pageWidth pageHeight : α) (rects : List (PDFRectangle α))
    (lines : List (PDFLine α)) : List (PDFLine α) :=
  ((enumIdx 0 lines).filter
    (fun p =>
      !(linesToRemove pageWidth pageHeight rects lines).contains p.1)).map
    Prod.snd

/-- Every member of a cluster comes from the clustered list. -/
theorem mem_of_mem_clusters :
    ∀ {l : List (ℕ × PDFRectangle α)} {g} {p}, g ∈ clusters l → p ∈ g →
      p ∈ l := by
  intro l
  induction l using clusters.induct with
  | case1 => intro g p hg _; simp [clusters] at hg
  | case2 x rest ih =>
    intro g p hg hp
    rw [clusters] at hg
    rcases List.mem_cons.mp hg with rfl | hg'
    · rcases List.mem_cons.mp hp with rfl | hp'
      · simp
      · exact List.mem_cons_of_mem _ (List.mem_of_mem_filter hp')
    · exact List.mem_cons_of_mem _
        (List.mem_of_mem_filter (ih hg' hp))

/-- The clusters partition the clustered list up to permutation. -/
theorem clusters_flatten_perm (l : List (ℕ × PDFRectangle α)) :
    (clusters l).flatten.Perm l := by
  induction l using clusters.induct with
  | case1 => simp [clusters]
  | case2 x rest ih =>
    rw [clusters]
    simp only [List.flatten_cons, List.cons_append]
    refine List.Perm.cons x ?_
    exact (List.Perm.append_left _ ih).trans (List.filter_append_perm _ rest)

/-- If the clustered list carries distinct indices, so does the
concatenation of the clusters' index lists. -/
theorem clusters_fst_flatten_nodup {l : List (ℕ × PDFRectangle α)}
    (h : (l.map Prod.fst).Nodup) :
    ((clusters l).map (fun g => g.map Prod.fst)).flatten.Nodup := by
  rw [← List.map_flatten]
  exact (((clusters_flatten_perm l).map Prod.fst).nodup_iff).mpr h

/-- The indices attached by `enumIdx` are consecutive. -/
theorem enumIdx_map_fst {β : Type} (n : ℕ) (l : List β) :
    (enumIdx n l).map Prod.fst = List.range' n l.length := by
  induction l generalizing n with
  | nil => simp [enumIdx]
  | cons x xs ih => simp [enumIdx, List.range'_succ, ih]

end MarkClassifier

/-- A single bleed-mark-like cluster of 3 rectangles sharing `y = 5`. -/
def threeRectsAtY5 : List (PDFRectangle ℚ) :=
  [⟨1, 100, 5, 20, 10, 1, false, true⟩,
   ⟨1, 150, 5, 20, 10, 1, false, true⟩,
   ⟨1, 200, 5, 20, 10, 1, false, true⟩]

/-- A mid-page line overlapping the cluster's X and Y ranges (it would be
removed were the cluster not edge-exempt) and a line far from it. -/
def sampleLines : List (PDFLine ℚ) :=
  [⟨1, 150, 5, 250, 5, true, false⟩, ⟨1, 200, 300, 250, 300, true, false⟩]

/-- C4: a cluster of 2 or more rectangles whose shared Y (the Y of the
cluster's seed rectangle) lies within the 50pt edge margin of the page top
or bottom is skipped by STEP 1 of `stripBleedMarks`: none of its
rectangles' indices is ever marked for removal; and on the concrete input
of a single 3-rectangle cluster at `y = 5` (page 500x700) the rectangle and
line sets pass through STEP 1 untouched. -/
theorem stripBleedMarks_edge_cluster_exempt :
    (∀ (rects : List (PDFRectangle ℚ)) (pageHeight : ℚ)
        (g : List (ℕ × PDFRectangle ℚ)) (p : ℕ × PDFRectangle ℚ)
        (rest : List (ℕ × PDFRectangle ℚ)) (q : ℕ × PDFRectangle ℚ),
        g ∈ clusters (enumIdx 0 rects) → g = p :: rest → 2 ≤ g.length →
        (p.2.y < 50 ∨ p.2.y > pageHeight - 50) →
        q ∈ g → q.1 ∉ rectanglesToRemove pageHeight rects) ∧
    (filteredRectangles 700 threeRectsAtY5 = threeRectsAtY5 ∧
      linesToRemove 500 700 threeRectsAtY5 sampleLines = [] ∧
      filteredLines 500 700 threeRectsAtY5 sampleLines = sampleLines) := by
  constructor
  · intro rects pageHeight g p rest q hg hgeq hlen hedge hq hmem
    -- locate the kept group that claims index `q.1`
    unfold rectanglesToRemove at hmem
    rw [List.mem_flatten] at hmem
    obtain ⟨s, hs, hqs⟩ := hmem
    rw [List.mem_map] at hs
    obtain ⟨g', hg', rfl⟩ := hs
    unfold rectangleGroups at hg'
    rw [List.mem_filter] at hg'
    obtain ⟨hg'cl, hg'cond⟩ := hg'
    rw [Bool.and_eq_true, decide_eq_true_eq, Bool.not_eq_true'] at hg'cond
    obtain ⟨hg'len, hg'edge⟩ := hg'cond
    rw [List.mem_map] at hqs
    obtain ⟨q', hq'g', hq'fst⟩ := hqs
    -- distinct indices everywhere
    have hnodup : ((enumIdx 0 rects).map Prod.fst).Nodup := by
      rw [enumIdx_map_fst]; exact List.nodup_range' 0 rects.length
    have hflat := clusters_fst_flatten_nodup hnodup
    obtain ⟨-, hpair⟩ := List.nodup_flatten.mp hflat
    have hsymm : Symmetric (List.Disjoint (α := ℕ)) :=
      fun _ _ h => h.symm
    by_cases heq : g.map Prod.fst = g'.map Prod.fst
    · -- same index set: the two seeds carry the same index, hence are the
      -- same rectangle, contradicting the conflicting edge conditions
      obtain ⟨p', rest', rfl⟩ : ∃ p' rest', g' = p' :: rest' := by
        cases g' with
        | nil => simp [hgeq] at heq
        | cons a t => exact ⟨a, t, rfl⟩
      have hfst : p.1 = p'.1 := by
        rw [hgeq] at heq
        simpa using congrArg List.head? heq
      have hp_mem : p ∈ enumIdx 0 rects :=
        mem_of_mem_clusters hg (hgeq ▸ List.mem_cons_self _ _)
      have hp'_mem : p' ∈ enumIdx 0 rects :=
        mem_of_mem_clusters hg'cl (List.mem_cons_self _ _)
      have : p = p' := List.inj_on_of_nodup_map hnodup hp_mem hp'_mem hfst
      rw [isEdgeCluster] at hg'edge
      rw [Bool.or_eq_false_iff, decide_eq_false_iff_not,
        decide_eq_false_iff_not] at hg'edge
      rw [← this] at hg'edge
      rcases hedge with h | h
      · exact hg'edge.1 h
      · exact hg'edge.2 h
    · -- different index sets: they are disjoint, yet share `q.1`
      have hmemg : g.map Prod.fst ∈
          (clusters (enumIdx 0 rects)).map (fun g => g.map Prod.fst) :=
        List.mem_map_of_mem _ hg
      have hmemg' : g'.map Prod.fst ∈
          (clusters (enumIdx 0 rects)).map (fun g => g.map Prod.fst) :=
        List.mem_map_of_mem _ hg'cl
      have hdisj := hpair.forall hsymm hmemg hmemg' heq
      exact hdisj (List.mem_map_of_mem Prod.fst hq)
        (hq'fst ▸ List.mem_map_of_mem Prod.fst hq'g')
  · refine ⟨?_, ?_, ?_⟩ <;>
      norm_num [filteredRectangles, filteredLines, linesToRemove,
        rectanglesToRemove, rectangleGroups, clusters, isEdgeCluster,
        sameYRect, enumIdx, threeRectsAtY5, sampleLines, List.filter,
        lineRemovedByGroup]

/-- Witness for C4: the edge exemption applied to that concrete cluster. -/
theorem stripBleedMarks_edge_cluster_exempt_witness :
    (0 : ℕ) ∉ rectanglesToRemove 700 threeRectsAtY5 :=
  stripBleedMarks_edge_cluster_exempt.1 threeRectsAtY5 700
    (enumIdx 0 threeRectsAtY5) ⟨0, ⟨1, 100, 5, 20, 10, 1, false, true⟩⟩
    (enumIdx 1 (threeRectsAtY5.drop 1)) ⟨0, ⟨1, 100, 5, 20, 10, 1, false, true⟩⟩
    (by norm_num [clusters, enumIdx, threeRectsAtY5, sameYRect, List.filter])
    (by norm_num [enumIdx, threeRectsAtY5])
    (by norm_num [enumIdx, threeRectsAtY5])
    (by norm_num [threeRectsAtY5])
    (by norm_num [enumIdx, threeRectsAtY5])

/-! ## Crop mark detector: STEP 2 of `stripBleedMarks` (`OCRAnalysis.cpp`
3576-3878)

The angle computation calls `atan2`, so this part is modelled over `ℝ`
(hence `noncomputable`); concrete instances are evaluated with `norm_num`.
-/

noncomputable section CropMarkDetector

/-- C `atan2(y, x)`: the angle of the vector `(x, y)`, by the standard
case split of the C library function. -/
def atan2 (y x : ℝ) : ℝ :=
  if 0 < x then Real.arctan (y / x)
  else if x < 0 then
    (if 0 ≤ y then Real.arctan (y / x) + Real.pi
     else Real.arctan (y / x) - Real.pi)
  else if 0 < y then Real.pi / 2
  else if y < 0 then -(Real.pi / 2)
  else 0

/-- C `fmod(x, y)` for a nonnegative dividend and positive divisor (the only
use here is `fmod(std::abs(angle), 180.0)`), where the C truncation toward
zero coincides with the floor. -/
def fmodPos (x y : ℝ) : ℝ := x - y * ⌊x / y⌋

/-- The normalised angle of a line: `atan2(y2-y1, x2-x1) * 180 / M_PI`
followed by `fmod(abs(angle), 180.0)` (`OCRAnalysis.cpp` 3615-3621). -/
def normAngle (l : PDFLine ℝ) : ℝ :=
  fmodPos |atan2 (l.y2 - l.y1) (l.x2 - l.x1) * 180 / Real.pi| 180

/-- The local `CropMark` struct of `stripBleedMarks`. -/
structure CropMark where
  line1Idx : ℕ
  line2Idx : ℕ
  cropX : ℝ
  cropY : ℝ

/-- The two-line determinant
`(x1-x2)*(y3-y4) - (y1-y2)*(x3-x4)` of the pair loop. -/
def denomOf (l1 l2 : PDFLine ℝ) : ℝ :=
  (l1.x1 - l1.x2) * (l2.y1 - l2.y2) - (l1.y1 - l1.y2) * (l2.x1 - l2.x2)

/-- `intersectX` of the pair loop: the X of the intersection of the two
lines extended to infinity.  The code computes it but does not use it for
the recorded mark. -/
def intersectionX (l1 l2 : PDFLine ℝ) : ℝ :=
  ((l1.x1 * l1.y2 - l1.y1 * l1.x2) * (l2.x1 - l2.x2) -
      (l1.x1 - l1.x2) * (l2.x1 * l2.y2 - l2.y1 * l2.x2)) / denomOf l1 l2

/-- `intersectY` of the pair loop: the Y of the intersection of the two
lines extended to infinity.  The code computes it but does not use it for
the recorded mark. -/
def intersectionY (l1 l2 : PDFLine ℝ) : ℝ :=
  ((l1.x1 * l1.y2 - l1.y1 * l1.x2) * (l2.y1 - l2.y2) -
      (l1.y1 - l1.y2) * (l2.x1 * l2.y2 - l2.y1 * l2.x2)) / denomOf l1 l2

/-- `minX` over the four endpoints of a pair (`std::min({...})`). -/
def pairMinX (l1 l2 : PDFLine ℝ) : ℝ :=
  min (min (min l1.x1 l1.x2) l2.x1) l2.x2

/-- `maxX` over the four endpoints of a pair. -/
def pairMaxX (l1 l2 : PDFLine ℝ) : ℝ :=
  max (max (max l1.x1 l1.x2) l2.x1) l2.x2

/-- `minY` over the four endpoints of a pair. -/
def pairMinY (l1 l2 : PDFLine ℝ) : ℝ :=
  min (min (min l1.y1 l1.y2) l2.y1) l2.y2

/-- `maxY` over the four endpoints of a pair. -/
def pairMaxY (l1 l2 : PDFLine ℝ) : ℝ :=
  max (max (max l1.y1 l1.y2) l2.y1) l2.y2

/-- `boxSize`: the larger side of the axis-aligned box enclosing the four
endpoints of a pair. -/
def boxSizeOf (l1 l2 : PDFLine ℝ) : ℝ :=
  max (pairMaxX l1 l2 - pairMinX l1 l2) (pairMaxY l1 l2 - pairMinY l1 l2)

/-- The crop-point heuristic of the pair loop (`OCRAnalysis.cpp`
3679-3729), for the line pair in (horizontal-role, vertical-role) order:
`cropX` is the midpoint X of the vertical line; `cropY` is the vertical
line's endpoint closest to the horizontal line's Y when the vertical line
crosses it, the horizontal Y when the vertical line lies entirely above,
and the vertical line's top endpoint when it lies entirely below. -/
def cropPointOf (horiz vert : PDFLine ℝ) : ℝ × ℝ :=
  let cropX := (vert.x1 + vert.x2) / 2
  let horizY := (horiz.y1 + horiz.y2) / 2
  let vertMinY := min vert.y1 vert.y2
  let vertMaxY := max vert.y1 vert.y2
  let cropY :=
    if horizY ≥ vertMinY ∧ horizY ≤ vertMaxY then
      (if |vert.y1 - horizY| < |vert.y2 - horizY| then vert.y1 else vert.y2)
    else if vertMinY > horizY then horizY
    else vertMaxY
  (cropX, cropY)

/-- One iteration of the crop-mark pair loop (`OCRAnalysis.cpp`
3607-3735): the perpendicularity test on the wrapped angle difference, the
proximity test, the near-parallel rejection via the determinant, and the
recorded mark built from the crop-point heuristic (the determinant
intersection itself, `intersectionX`/`intersectionY`, is left unused by the
code). -/
def cropMarkOfPair (i j : ℕ) (l1 l2 : PDFLine ℝ) : Option CropMark :=
  let angle1 := normAngle l1
  let angle2 := normAngle l2
  let angleDiff0 := |angle1 - angle2|
  let angleDiff := if angleDiff0 > 90 then 180 - angleDiff0 else angleDiff0
  if |angleDiff - 90| < 5 then
    if boxSizeOf l1 l2 > 50 then none
    else if |denomOf l1 l2| < 1 / 10000000000 then none
    else
      let line1IsHorizontal := |l1.y2 - l1.y1| < |l1.x2 - l1.x1|
      let pt := if line1IsHorizontal then cropPointOf l1 l2
                else cropPointOf l2 l1
      some ⟨i, j, pt.1, pt.2⟩
  else none

/-- The crop-mark candidate list: the double loop over all index pairs
`i < j` of the filtered lines, in C++ iteration order. -/
def cropMarksOf (lines : List (PDFLine ℝ)) : List CropMark :=
  (allPairs (enumIdx 0 lines)).filterMap
    (fun pq => cropMarkOfPair pq.1.1 pq.2.1 pq.1.2 pq.2.2)

/-- The four quadrant slots of the surplus-candidate reduction
(`topLeft`/`topRight`/`bottomLeft`/`bottomRight` pointers in C++). -/
structure QuadSel where
  topLeft : Option CropMark
  topRight : Option CropMark
  bottomLeft : Option CropMark
  bottomRight : Option CropMark

/-- One step of the corner-most selection loop (`OCRAnalysis.cpp`
3771-3791): the mark's quadrant relative to the centroid of the candidate
bounding box decides the slot; top-left minimises `x+y`, top-right
maximises `x-y`, bottom-left maximises `y-x`, bottom-right maximises
`x+y`. -/
def selectStep (midX midY : ℝ) (st : QuadSel) (mark : CropMark) : QuadSel :=
  let isLeft := mark.cropX < midX
  let isTop := mark.cropY < midY
  if isLeft ∧ isTop then
    match st.topLeft with
    | none => { st with topLeft := some mark }
    | some u =>
      if mark.cropX + mark.cropY < u.cropX + u.cropY then
        { st with topLeft := some mark }
      else st
  else if ¬isLeft ∧ isTop then
    match st.topRight with
    | none => { st with topRight := some mark }
    | some u =>
      if mark.cropX - mark.cropY > u.cropX - u.cropY then
        { st with topRight := some mark }
      else st
  else if isLeft ∧ ¬isTop then
    match st.bottomLeft with
    | none => { st with bottomLeft := some mark }
    | some u =>
      if mark.cropY - mark.cropX > u.cropY - u.cropX then
        { st with bottomLeft := some mark }
      else st
  else
    match st.bottomRight with
    | none => { st with bottomRight := some mark }
    | some u =>
      if mark.cropX + mark.cropY > u.cropX + u.cropY then
        { st with bottomRight := some mark }
      else st

/-- `min` fold over the marks' `cropX` (C++ `DBL_MAX`-initialised; only used
on nonempty mark lists, so the default is never consulted). -/
def marksMinX (marks : List CropMark) : ℝ :=
  ((marks.map (fun m => m.cropX)).min?).getD 0

/-- `max` fold over the marks' `cropX`. -/
def marksMaxX (marks : List CropMark) : ℝ :=
  ((marks.map (fun m => m.cropX)).max?).getD 0

/-- `min` fold over the marks' `cropY`. -/
def marksMinY (marks : List CropMark) : ℝ :=
  ((marks.map (fun m => m.cropY)).min?).getD 0

/-- `max` fold over the marks' `cropY`. -/
def marksMaxY (marks : List CropMark) : ℝ :=
  ((marks.map (fun m => m.cropY)).max?).getD 0

/-- The surplus reduction (`OCRAnalysis.cpp` 3752-3800): when more than 4
candidates survive, pick the corner-most candidate of each quadrant
relative to the candidate centroid and rebuild the list in
top-left, top-right, bottom-left, bottom-right order, dropping empty
slots. -/
def reduceToFourMarks (marks : List CropMark) : List CropMark :=
  if marks.length > 4 then
    let midX := (marksMinX marks + marksMaxX marks) / 2
    let midY := (marksMinY marks + marksMaxY marks) / 2
    let st := marks.foldl (selectStep midX midY) ⟨none, none, none, none⟩
    ([st.topLeft, st.topRight, st.bottomLeft, st.bottomRight]).filterMap id
  else marks

/-- The selected crop marks of an input: candidates from the mark-classifier
output, reduced to at most four. -/
def selectedCropMarks (e : PDFElements ℝ) : List CropMark :=
  reduceToFourMarks (cropMarksOf
    (filteredLines e.pageWidth e.pageHeight e.rectangles e.graphicLines))

/-- The default-initialised `PDFElements result` of `stripBleedMarks`
(`success = false`, empty collections, zeroed geometry). -/
def emptyPDFElements : PDFElements ℝ :=
  ⟨false, "", [], [], [], [], 0, 0, 0, 0, 0, 0, 0, 0, 0, 0⟩

/-- `stripBleedMarks` of `OCRAnalysis.cpp` (3405-3878), starting from the
extracted `PDFElements` (the PDF parsing itself is I/O and out of scope):
STEP 1 removes bleed-mark rectangle clusters and their lines, STEP 2
detects perpendicular crop-mark pairs, reduces surplus candidates, rejects
a crop box smaller than 100pt in either dimension, removes the crop-mark
lines and installs the crop box.  The numeric payload of the C++ error
strings (counts, sizes) is elided. -/
def stripBleedMarksFrom (e : PDFElements ℝ) : PDFElements ℝ :=
  if !e.success then
    { emptyPDFElements with
      errorMessage := "Failed to extract PDF elements: " ++ e.errorMessage }
  else
    let fRects := filteredRectangles e.pageHeight e.rectangles
    let fLines :=
      filteredLines e.pageWidth e.pageHeight e.rectangles e.graphicLines
    if (cropMarksOf fLines).length < 4 then
      { emptyPDFElements with
        errorMessage := "Could not find 4 crop marks." }
    else
      let marks := selectedCropMarks e
      if marks.length ≠ 4 then
        { emptyPDFElements with
          errorMessage := "Could not identify exactly 4 crop marks" }
      else
        let cropMinX := marksMinX marks
        let cropMaxX := marksMaxX marks
        let cropMinY := marksMinY marks
        let cropMaxY := marksMaxY marks
        let cropWidth := cropMaxX - cropMinX
        let cropHeight := cropMaxY - cropMinY
        if cropWidth < 100 ∨ cropHeight < 100 then
          { emptyPDFElements with
            errorMessage := "Detected crop box is too small" }
        else
          let cropLineIdx :=
            (marks.map (fun m => m.line1Idx)) ++
              (marks.map (fun m => m.line2Idx))
          let finalLines :=
            ((enumIdx 0 fLines).filter
              (fun p => !cropLineIdx.contains p.1)).map Prod.snd
          { e with
            rectangles := fRects
            graphicLines := finalLines
            rectangleCount := fRects.length
            graphicLineCount := finalLines.length
            pageX := cropMinX
            pageY := cropMinY
            pageWidth := cropWidth
            pageHeight := cropHeight
            linesBoundingBoxX := cropMinX
            linesBoundingBoxY := cropMinY
            linesBoundingBoxWidth := cropWidth
            linesBoundingBoxHeight := cropHeight
            success := true }

/-- A left-to-right horizontal line has normalised angle `0`. -/
theorem normAngle_horiz {l : PDFLine ℝ} (hy : l.y1 = l.y2) (hx : l.x1 < l.x2) :
    normAngle l = 0 := by
  have hdx : 0 < l.x2 - l.x1 := by linarith
  have h1 : atan2 (l.y2 - l.y1) (l.x2 - l.x1) = 0 := by
    rw [atan2, if_pos hdx, hy]
    simp
  rw [normAngle, h1]
  simp [fmodPos]

/-- A bottom-to-top vertical line has normalised angle `90`. -/
theorem normAngle_vert {l : PDFLine ℝ} (hx : l.x1 = l.x2) (hy : l.y1 < l.y2) :
    normAngle l = 90 := by
  have hdy : 0 < l.y2 - l.y1 := by linarith
  have h1 : atan2 (l.y2 - l.y1) (l.x2 - l.x1) = Real.pi / 2 := by
    rw [atan2, hx]
    simp [hdy, lt_irrefl]
  rw [normAngle, h1]
  have h2 : Real.pi / 2 * 180 / Real.pi = 90 := by
    field_simp
    ring
  rw [h2]
  rw [abs_of_nonneg (by norm_num : (0:ℝ) ≤ 90)]
  norm_num [fmodPos]

/-- Two lines with equal normalised angles fail the perpendicularity test
(wrapped difference `0`), so the pair yields no candidate. -/
theorem cropMarkOfPair_none_of_parallel (i j : ℕ) (l1 l2 : PDFLine ℝ)
    (h : normAngle l1 = normAngle l2) : cropMarkOfPair i j l1 l2 = none := by
  rw [cropMarkOfPair]
  simp only [h, sub_self, abs_zero]
  norm_num

/-- A pair whose enclosing box exceeds the 50pt proximity tolerance yields
no candidate, whatever the angles. -/
theorem cropMarkOfPair_none_of_wide (i j : ℕ) (l1 l2 : PDFLine ℝ)
    (h : boxSizeOf l1 l2 > 50) : cropMarkOfPair i j l1 l2 = none := by
  rw [cropMarkOfPair]
  by_cases hp : |(if |normAngle l1 - normAngle l2| > 90 then
      180 - |normAngle l1 - normAngle l2|
      else |normAngle l1 - normAngle l2|) - 90| < 5
  · rw [if_pos hp, if_pos h]
  · rw [if_neg hp]

/-- A lower bound on the X spread of a pair bounds `boxSize` from below. -/
theorem boxSize_gt_of_x {l1 l2 : PDFLine ℝ} {a b : ℝ}
    (h1 : pairMinX l1 l2 ≤ a) (h2 : b ≤ pairMaxX l1 l2) (h : 50 < b - a) :
    boxSizeOf l1 l2 > 50 := by
  have := le_max_left (pairMaxX l1 l2 - pairMinX l1 l2)
    (pairMaxY l1 l2 - pairMinY l1 l2)
  rw [boxSizeOf]
  rw [gt_iff_lt]
  calc (50:ℝ) < b - a := h
    _ ≤ pairMaxX l1 l2 - pairMinX l1 l2 := by linarith
    _ ≤ _ := this

/-- A lower bound on the Y spread of a pair bounds `boxSize` from below. -/
theorem boxSize_gt_of_y {l1 l2 : PDFLine ℝ} {a b : ℝ}
    (h1 : pairMinY l1 l2 ≤ a) (h2 : b ≤ pairMaxY l1 l2) (h : 50 < b - a) :
    boxSizeOf l1 l2 > 50 := by
  have := le_max_right (pairMaxX l1 l2 - pairMinX l1 l2)
    (pairMaxY l1 l2 - pairMinY l1 l2)
  rw [boxSizeOf, gt_iff_lt]
  calc (50:ℝ) < b - a := h
    _ ≤ pairMaxY l1 l2 - pairMinY l1 l2 := by linarith
    _ ≤ _ := this

theorem pairMinX_le_l1x1 (l1 l2 : PDFLine ℝ) : pairMinX l1 l2 ≤ l1.x1 :=
  ((min_le_left _ _).trans (min_le_left _ _)).trans (min_le_left _ _)

theorem pairMinX_le_l2x1 (l1 l2 : PDFLine ℝ) : pairMinX l1 l2 ≤ l2.x1 :=
  (min_le_left _ _).trans (min_le_right _ _)

theorem pairMinY_le_l1y1 (l1 l2 : PDFLine ℝ) : pairMinY l1 l2 ≤ l1.y1 :=
  ((min_le_left _ _).trans (min_le_left _ _)).trans (min_le_left _ _)

theorem pairMinY_le_l2y1 (l1 l2 : PDFLine ℝ) : pairMinY l1 l2 ≤ l2.y1 :=
  (min_le_left _ _).trans (min_le_right _ _)

theorem le_pairMaxX_l1x1 (l1 l2 : PDFLine ℝ) : l1.x1 ≤ pairMaxX l1 l2 :=
  ((le_max_left _ _).trans (le_max_left _ _)).trans (le_max_left _ _)

theorem le_pairMaxX_l1x2 (l1 l2 : PDFLine ℝ) : l1.x2 ≤ pairMaxX l1 l2 :=
  ((le_max_right _ _).trans (le_max_left _ _)).trans (le_max_left _ _)

theorem le_pairMaxX_l2x1 (l1 l2 : PDFLine ℝ) : l2.x1 ≤ pairMaxX l1 l2 :=
  (le_max_right _ _).trans (le_max_left _ _)

theorem le_pairMaxX_l2x2 (l1 l2 : PDFLine ℝ) : l2.x2 ≤ pairMaxX l1 l2 :=
  le_max_right _ _

theorem le_pairMaxY_l1y1 (l1 l2 : PDFLine ℝ) : l1.y1 ≤ pairMaxY l1 l2 :=
  ((le_max_left _ _).trans (le_max_left _ _)).trans (le_max_left _ _)

theorem le_pairMaxY_l2y1 (l1 l2 : PDFLine ℝ) : l2.y1 ≤ pairMaxY l1 l2 :=
  (le_max_right _ _).trans (le_max_left _ _)

theorem le_pairMaxY_l2y2 (l1 l2 : PDFLine ℝ) : l2.y2 ≤ pairMaxY l1 l2 :=
  le_max_right _ _

theorem pairMaxX_le (l1 l2 : PDFLine ℝ) {c : ℝ} (h1 : l1.x1 ≤ c)
    (h2 : l1.x2 ≤ c) (h3 : l2.x1 ≤ c) (h4 : l2.x2 ≤ c) :
    pairMaxX l1 l2 ≤ c :=
  max_le (max_le (max_le h1 h2) h3) h4

theorem le_pairMinX (l1 l2 : PDFLine ℝ) {c : ℝ} (h1 : c ≤ l1.x1)
    (h2 : c ≤ l1.x2) (h3 : c ≤ l2.x1) (h4 : c ≤ l2.x2) :
    c ≤ pairMinX l1 l2 :=
  le_min (le_min (le_min h1 h2) h3) h4

theorem pairMaxY_le (l1 l2 : PDFLine ℝ) {c : ℝ} (h1 : l1.y1 ≤ c)
    (h2 : l1.y2 ≤ c) (h3 : l2.y1 ≤ c) (h4 : l2.y2 ≤ c) :
    pairMaxY l1 l2 ≤ c :=
  max_le (max_le (max_le h1 h2) h3) h4

theorem le_pairMinY (l1 l2 : PDFLine ℝ) {c : ℝ} (h1 : c ≤ l1.y1)
    (h2 : c ≤ l1.y2) (h3 : c ≤ l2.y1) (h4 : c ≤ l2.y2) :
    c ≤ pairMinY l1 l2 :=
  le_min (le_min (le_min h1 h2) h3) h4

/-- `boxSize` is bounded by a bound on both spreads. -/
theorem boxSizeOf_le {l1 l2 : PDFLine ℝ} {c : ℝ}
    (hx : pairMaxX l1 l2 - pairMinX l1 l2 ≤ c)
    (hy : pairMaxY l1 l2 - pairMinY l1 l2 ≤ c) : boxSizeOf l1 l2 ≤ c :=
  max_le hx hy

/-- Crop point of an axis-aligned L whose vertical tick starts on the
horizontal line and extends upward (in page coordinates). -/
theorem cropPointOf_L_up {h v : PDFLine ℝ}
    (hy : h.y1 = h.y2) (vx : v.x1 = v.x2) (vy : v.y1 < v.y2)
    (ht : v.y1 = h.y1) : cropPointOf h v = (v.x1, h.y1) := by
  simp only [cropPointOf]
  have h1 : (h.y1 + h.y2) / 2 = h.y1 := by rw [← hy]; ring
  have h2 : (v.x1 + v.x2) / 2 = v.x1 := by rw [← vx]; ring
  rw [h1, h2, min_eq_left vy.le, max_eq_right vy.le]
  rw [if_pos ⟨le_of_eq ht, ht ▸ vy.le⟩]
  rw [if_pos]
  · rw [ht]
  · rw [ht, sub_self, abs_zero, abs_pos]
    intro hcon
    exact absurd (by linarith [sub_eq_zero.mp hcon] : v.y2 = v.y1) vy.ne'

/-- Crop point of an axis-aligned L whose vertical tick ends on the
horizontal line, extending from below. -/
theorem cropPointOf_L_down {h v : PDFLine ℝ}
    (hy : h.y1 = h.y2) (vx : v.x1 = v.x2) (vy : v.y1 < v.y2)
    (ht : v.y2 = h.y1) : cropPointOf h v = (v.x1, h.y1) := by
  simp only [cropPointOf]
  have h1 : (h.y1 + h.y2) / 2 = h.y1 := by rw [← hy]; ring
  have h2 : (v.x1 + v.x2) / 2 = v.x1 := by rw [← vx]; ring
  rw [h1, h2, min_eq_left vy.le, max_eq_right vy.le]
  rw [if_pos ⟨ht ▸ vy.le, le_of_eq ht.symm⟩]
  rw [if_neg]
  · rw [ht]
  · rw [ht, sub_self, abs_zero]
    exact not_lt.mpr (abs_nonneg _)

/-- An axis-aligned L of ticks (horizontal first) touching at the corner
passes the angle, proximity and determinant tests and records the corner
point. -/
theorem cropMarkOfPair_L (i j : ℕ) (h v : PDFLine ℝ)
    (hy : h.y1 = h.y2) (hx : h.x1 < h.x2)
    (vx : v.x1 = v.x2) (vy : v.y1 < v.y2)
    (ht : v.y1 = h.y1 ∨ v.y2 = h.y1)
    (hbox : boxSizeOf h v ≤ 50)
    (hden : 1 / 10000000000 ≤ (h.x2 - h.x1) * (v.y2 - v.y1)) :
    cropMarkOfPair i j h v = some ⟨i, j, v.x1, h.y1⟩ := by
  have hhoriz : |h.y2 - h.y1| < |h.x2 - h.x1| := by
    rw [hy, sub_self, abs_zero, abs_pos]
    intro hcon
    exact absurd (by linarith [sub_eq_zero.mp hcon] : h.x2 = h.x1) hx.ne'
  have hpt : cropPointOf h v = (v.x1, h.y1) := by
    rcases ht with ht | ht
    · exact cropPointOf_L_up hy vx vy ht
    · exact cropPointOf_L_down hy vx vy ht
  rw [cropMarkOfPair]
  rw [normAngle_horiz hy hx, normAngle_vert vx vy]
  rw [if_pos (by norm_num)]
  rw [if_neg (not_lt.mpr hbox)]
  have hd : denomOf h v = (h.x2 - h.x1) * (v.y2 - v.y1) := by
    rw [denomOf, hy, vx]; ring
  rw [if_neg (by
    rw [hd, abs_of_pos (by positivity)]
    exact not_lt.mpr hden)]
  simp only [if_pos hhoriz, hpt]

/-- Four synthetic L-shaped crop-tick pairs of length `t`, meeting at the
corner points `(10,10)`, `(490,10)`, `(10,yb)`, `(490,yb)` and pointing
into the page, listed corner by corner (horizontal tick before vertical
tick). -/
def cropTicksGen (t yb : ℝ) : List (PDFLine ℝ) :=
  [⟨1, 10, 10, 10 + t, 10, true, false⟩,
   ⟨1, 10, 10, 10, 10 + t, false, true⟩,
   ⟨1, 490 - t, 10, 490, 10, true, false⟩,
   ⟨1, 490, 10, 490, 10 + t, false, true⟩,
   ⟨1, 10, yb, 10 + t, yb, true, false⟩,
   ⟨1, 10, yb - t, 10, yb, false, true⟩,
   ⟨1, 490 - t, yb, 490, yb, true, false⟩,
   ⟨1, 490, yb - t, 490, yb, false, true⟩]

/-- The top-left tick pair records its corner point. -/
theorem cropMarkOfPair_tick_TL (i j : ℕ) (cx cy t : ℝ)
    (h1 : 1 ≤ t) (h50 : t ≤ 50) :
    cropMarkOfPair i j ⟨1, cx, cy, cx + t, cy, true, false⟩
      ⟨1, cx, cy, cx, cy + t, false, true⟩ = some ⟨i, j, cx, cy⟩ := by
  apply cropMarkOfPair_L
  · rfl
  · show cx < cx + t; linarith
  · rfl
  · show cy < cy + t; linarith
  · exact Or.inl rfl
  · apply boxSizeOf_le
    · have hM := pairMaxX_le (⟨1, cx, cy, cx + t, cy, true, false⟩)
        (⟨1, cx, cy, cx, cy + t, false, true⟩) (c := cx + t)
        (show cx ≤ cx + t by linarith) (le_refl _)
        (show cx ≤ cx + t by linarith) (show cx ≤ cx + t by linarith)
      have hm := le_pairMinX (⟨1, cx, cy, cx + t, cy, true, false⟩)
        (⟨1, cx, cy, cx, cy + t, false, true⟩) (c := cx)
        (le_refl _) (show cx ≤ cx + t by linarith) (le_refl _) (le_refl _)
      linarith
    · have hM := pairMaxY_le (⟨1, cx, cy, cx + t, cy, true, false⟩)
        (⟨1, cx, cy, cx, cy + t, false, true⟩) (c := cy + t)
        (show cy ≤ cy + t by linarith) (show cy ≤ cy + t by linarith)
        (show cy ≤ cy + t by linarith) (le_refl _)
      have hm := le_pairMinY (⟨1, cx, cy, cx + t, cy, true, false⟩)
        (⟨1, cx, cy, cx, cy + t, false, true⟩) (c := cy)
        (le_refl _) (le_refl _) (le_refl _) (show cy ≤ cy + t by linarith)
      linarith
  · show (1:ℝ) / 10000000000 ≤ (cx + t - cx) * (cy + t - cy)
    nlinarith

/-- The top-right tick pair records its corner point. -/
theorem cropMarkOfPair_tick_TR (i j : ℕ) (cx cy t : ℝ)
    (h1 : 1 ≤ t) (h50 : t ≤ 50) :
    cropMarkOfPair i j ⟨1, cx - t, cy, cx, cy, true, false⟩
      ⟨1, cx, cy, cx, cy + t, false, true⟩ = some ⟨i, j, cx, cy⟩ := by
  apply cropMarkOfPair_L
  · rfl
  · show cx - t < cx; linarith
  · rfl
  · show cy < cy + t; linarith
  · exact Or.inl rfl
  · apply boxSizeOf_le
    · have hM := pairMaxX_le (⟨1, cx - t, cy, cx, cy, true, false⟩)
        (⟨1, cx, cy, cx, cy + t, false, true⟩) (c := cx)
        (show cx - t ≤ cx by linarith) (le_refl _) (le_refl _) (le_refl _)
      have hm := le_pairMinX (⟨1, cx - t, cy, cx, cy, true, false⟩)
        (⟨1, cx, cy, cx, cy + t, false, true⟩) (c := cx - t)
        (le_refl _) (show cx - t ≤ cx by linarith)
        (show cx - t ≤ cx by linarith) (show cx - t ≤ cx by linarith)
      linarith
    · have hM := pairMaxY_le (⟨1, cx - t, cy, cx, cy, true, false⟩)
        (⟨1, cx, cy, cx, cy + t, false, true⟩) (c := cy + t)
        (show cy ≤ cy + t by linarith) (show cy ≤ cy + t by linarith)
        (show cy ≤ cy + t by linarith) (le_refl _)
      have hm := le_pairMinY (⟨1, cx - t, cy, cx, cy, true, false⟩)
        (⟨1, cx, cy, cx, cy + t, false, true⟩) (c := cy)
        (le_refl _) (le_refl _) (le_refl _) (show cy ≤ cy + t by linarith)
      linarith
  · show (1:ℝ) / 10000000000 ≤ (cx - (cx - t)) * (cy + t - cy)
    nlinarith

/-- The bottom-left tick pair records its corner point. -/
theorem cropMarkOfPair_tick_BL (i j : ℕ) (cx cy t : ℝ)
    (h1 : 1 ≤ t) (h50 : t ≤ 50) :
    cropMarkOfPair i j ⟨1, cx, cy, cx + t, cy, true, false⟩
      ⟨1, cx, cy - t, cx, cy, false, true⟩ = some ⟨i, j, cx, cy⟩ := by
  apply cropMarkOfPair_L
  · rfl
  · show cx < cx + t; linarith
  · rfl
  · show cy - t < cy; linarith
  · exact Or.inr rfl
  · apply boxSizeOf_le
    · have hM := pairMaxX_le (⟨1, cx, cy, cx + t, cy, true, false⟩)
        (⟨1, cx, cy - t, cx, cy, false, true⟩) (c := cx + t)
        (show cx ≤ cx + t by linarith) (le_refl _)
        (show cx ≤ cx + t by linarith) (show cx ≤ cx + t by linarith)
      have hm := le_pairMinX (⟨1, cx, cy, cx + t, cy, true, false⟩)
        (⟨1, cx, cy - t, cx, cy, false, true⟩) (c := cx)
        (le_refl _) (show cx ≤ cx + t by linarith) (le_refl _) (le_refl _)
      linarith
    · have hM := pairMaxY_le (⟨1, cx, cy, cx + t, cy, true, false⟩)
        (⟨1, cx, cy - t, cx, cy, false, true⟩) (c := cy)
        (le_refl _) (le_refl _) (show cy - t ≤ cy by linarith) (le_refl _)
      have hm := le_pairMinY (⟨1, cx, cy, cx + t, cy, true, false⟩)
        (⟨1, cx, cy - t, cx, cy, false, true⟩) (c := cy - t)
        (show cy - t ≤ cy by linarith) (show cy - t ≤ cy by linarith)
        (le_refl _) (show cy - t ≤ cy by linarith)
      linarith
  · show (1:ℝ) / 10000000000 ≤ (cx + t - cx) * (cy - (cy - t))
    nlinarith

/-- The bottom-right tick pair records its corner point. -/
theorem cropMarkOfPair_tick_BR (i j : ℕ) (cx cy t : ℝ)
    (h1 : 1 ≤ t) (h50 : t ≤ 50) :
    cropMarkOfPair i j ⟨1, cx - t, cy, cx, cy, true, false⟩
      ⟨1, cx, cy - t, cx, cy, false, true⟩ = some ⟨i, j, cx, cy⟩ := by
  apply cropMarkOfPair_L
  · rfl
  · show cx - t < cx; linarith
  · rfl
  · show cy - t < cy; linarith
  · exact Or.inr rfl
  · apply boxSizeOf_le
    · have hM := pairMaxX_le (⟨1, cx - t, cy, cx, cy, true, false⟩)
        (⟨1, cx, cy - t, cx, cy, false, true⟩) (c := cx)
        (show cx - t ≤ cx by linarith) (le_refl _) (le_refl _) (le_refl _)
      have hm := le_pairMinX (⟨1, cx - t, cy, cx, cy, true, false⟩)
        (⟨1, cx, cy - t, cx, cy, false, true⟩) (c := cx - t)
        (le_refl _) (show cx - t ≤ cx by linarith)
        (show cx - t ≤ cx by linarith) (show cx - t ≤ cx by linarith)
      linarith
    · have hM := pairMaxY_le (⟨1, cx - t, cy, cx, cy, true, false⟩)
        (⟨1, cx, cy - t, cx, cy, false, true⟩) (c := cy)
        (le_refl _) (le_refl _) (show cy - t ≤ cy by linarith) (le_refl _)
      have hm := le_pairMinY (⟨1, cx - t, cy, cx, cy, true, false⟩)
        (⟨1, cx, cy - t, cx, cy, false, true⟩) (c := cy - t)
        (show cy - t ≤ cy by linarith) (show cy - t ≤ cy by linarith)
        (le_refl _) (show cy - t ≤ cy by linarith)
      linarith
  · show (1:ℝ) / 10000000000 ≤ (cx - (cx - t)) * (cy - (cy - t))
    nlinarith

/-- On the synthetic tick configuration the pair loop accepts exactly the
four same-corner pairs (same-orientation pairs fail the perpendicularity
test, cross-corner pairs fail the proximity test) and records the four
corner points. -/
theorem cropMarksOf_cropTicksGen (t yb : ℝ) (h1 : 1 ≤ t)
    (h50 : t ≤ 50) (hyb : 70 ≤ yb) :
    cropMarksOf (cropTicksGen t yb) =
      [⟨0, 1, 10, 10⟩, ⟨2, 3, 490, 10⟩, ⟨4, 5, 10, yb⟩,
       ⟨6, 7, 490, yb⟩] := by
  have a0 : normAngle (⟨1, 10, 10, 10 + t, 10, true, false⟩ : PDFLine ℝ) = 0 :=
    normAngle_horiz rfl (show (10:ℝ) < 10 + t by linarith)
  have a1 : normAngle (⟨1, 10, 10, 10, 10 + t, false, true⟩ : PDFLine ℝ) = 90 :=
    normAngle_vert rfl (show (10:ℝ) < 10 + t by linarith)
  have a2 : normAngle (⟨1, 490 - t, 10, 490, 10, true, false⟩ : PDFLine ℝ) = 0 :=
    normAngle_horiz rfl (show (490:ℝ) - t < 490 by linarith)
  have a3 : normAngle (⟨1, 490, 10, 490, 10 + t, false, true⟩ : PDFLine ℝ) = 90 :=
    normAngle_vert rfl (show (10:ℝ) < 10 + t by linarith)
  have a4 : normAngle (⟨1, 10, yb, 10 + t, yb, true, false⟩ : PDFLine ℝ) = 0 :=
    normAngle_horiz rfl (show (10:ℝ) < 10 + t by linarith)
  have a5 : normAngle (⟨1, 10, yb - t, 10, yb, false, true⟩ : PDFLine ℝ) = 90 :=
    normAngle_vert rfl (show yb - t < yb by linarith)
  have a6 : normAngle (⟨1, 490 - t, yb, 490, yb, true, false⟩ : PDFLine ℝ) = 0 :=
    normAngle_horiz rfl (show (490:ℝ) - t < 490 by linarith)
  have a7 : normAngle (⟨1, 490, yb - t, 490, yb, false, true⟩ : PDFLine ℝ) = 90 :=
    normAngle_vert rfl (show yb - t < yb by linarith)
  have h01 : cropMarkOfPair 0 1 ⟨1, 10, 10, 10 + t, 10, true, false⟩ ⟨1, 10, 10, 10, 10 + t, false, true⟩ =
      some ⟨0, 1, 10, 10⟩ := cropMarkOfPair_tick_TL 0 1 10 10 t h1 h50
  have h23 : cropMarkOfPair 2 3 ⟨1, 490 - t, 10, 490, 10, true, false⟩ ⟨1, 490, 10, 490, 10 + t, false, true⟩ =
      some ⟨2, 3, 490, 10⟩ := cropMarkOfPair_tick_TR 2 3 490 10 t h1 h50
  have h45 : cropMarkOfPair 4 5 ⟨1, 10, yb, 10 + t, yb, true, false⟩ ⟨1, 10, yb - t, 10, yb, false, true⟩ =
      some ⟨4, 5, 10, yb⟩ := cropMarkOfPair_tick_BL 4 5 10 yb t h1 h50
  have h67 : cropMarkOfPair 6 7 ⟨1, 490 - t, yb, 490, yb, true, false⟩ ⟨1, 490, yb - t, 490, yb, false, true⟩ =
      some ⟨6, 7, 490, yb⟩ := cropMarkOfPair_tick_BR 6 7 490 yb t h1 h50
  have h02 : cropMarkOfPair 0 2 ⟨1, 10, 10, 10 + t, 10, true, false⟩ ⟨1, 490 - t, 10, 490, 10, true, false⟩ = none :=
    cropMarkOfPair_none_of_parallel 0 2 _ _ (a0.trans a2.symm)
  have h04 : cropMarkOfPair 0 4 ⟨1, 10, 10, 10 + t, 10, true, false⟩ ⟨1, 10, yb, 10 + t, yb, true, false⟩ = none :=
    cropMarkOfPair_none_of_parallel 0 4 _ _ (a0.trans a4.symm)
  have h06 : cropMarkOfPair 0 6 ⟨1, 10, 10, 10 + t, 10, true, false⟩ ⟨1, 490 - t, yb, 490, yb, true, false⟩ = none :=
    cropMarkOfPair_none_of_parallel 0 6 _ _ (a0.trans a6.symm)
  have h24 : cropMarkOfPair 2 4 ⟨1, 490 - t, 10, 490, 10, true, false⟩ ⟨1, 10, yb, 10 + t, yb, true, false⟩ = none :=
    cropMarkOfPair_none_of_parallel 2 4 _ _ (a2.trans a4.symm)
  have h26 : cropMarkOfPair 2 6 ⟨1, 490 - t, 10, 490, 10, true, false⟩ ⟨1, 490 - t, yb, 490, yb, true, false⟩ = none :=
    cropMarkOfPair_none_of_parallel 2 6 _ _ (a2.trans a6.symm)
  have h46 : cropMarkOfPair 4 6 ⟨1, 10, yb, 10 + t, yb, true, false⟩ ⟨1, 490 - t, yb, 490, yb, true, false⟩ = none :=
    cropMarkOfPair_none_of_parallel 4 6 _ _ (a4.trans a6.symm)
  have h13 : cropMarkOfPair 1 3 ⟨1, 10, 10, 10, 10 + t, false, true⟩ ⟨1, 490, 10, 490, 10 + t, false, true⟩ = none :=
    cropMarkOfPair_none_of_parallel 1 3 _ _ (a1.trans a3.symm)
  have h15 : cropMarkOfPair 1 5 ⟨1, 10, 10, 10, 10 + t, false, true⟩ ⟨1, 10, yb - t, 10, yb, false, true⟩ = none :=
    cropMarkOfPair_none_of_parallel 1 5 _ _ (a1.trans a5.symm)
  have h17 : cropMarkOfPair 1 7 ⟨1, 10, 10, 10, 10 + t, false, true⟩ ⟨1, 490, yb - t, 490, yb, false, true⟩ = none :=
    cropMarkOfPair_none_of_parallel 1 7 _ _ (a1.trans a7.symm)
  have h35 : cropMarkOfPair 3 5 ⟨1, 490, 10, 490, 10 + t, false, true⟩ ⟨1, 10, yb - t, 10, yb, false, true⟩ = none :=
    cropMarkOfPair_none_of_parallel 3 5 _ _ (a3.trans a5.symm)
  have h37 : cropMarkOfPair 3 7 ⟨1, 490, 10, 490, 10 + t, false, true⟩ ⟨1, 490, yb - t, 490, yb, false, true⟩ = none :=
    cropMarkOfPair_none_of_parallel 3 7 _ _ (a3.trans a7.symm)
  have h57 : cropMarkOfPair 5 7 ⟨1, 10, yb - t, 10, yb, false, true⟩ ⟨1, 490, yb - t, 490, yb, false, true⟩ = none :=
    cropMarkOfPair_none_of_parallel 5 7 _ _ (a5.trans a7.symm)
  have h03 : cropMarkOfPair 0 3 ⟨1, 10, 10, 10 + t, 10, true, false⟩ ⟨1, 490, 10, 490, 10 + t, false, true⟩ = none :=
    cropMarkOfPair_none_of_wide 0 3 _ _
      (boxSize_gt_of_x (a := 10) (b := 490)
        (pairMinX_le_l1x1 ⟨1, 10, 10, 10 + t, 10, true, false⟩ ⟨1, 490, 10, 490, 10 + t, false, true⟩)
        (le_pairMaxX_l2x1 ⟨1, 10, 10, 10 + t, 10, true, false⟩ ⟨1, 490, 10, 490, 10 + t, false, true⟩) (by linarith))
  have h05 : cropMarkOfPair 0 5 ⟨1, 10, 10, 10 + t, 10, true, false⟩ ⟨1, 10, yb - t, 10, yb, false, true⟩ = none :=
    cropMarkOfPair_none_of_wide 0 5 _ _
      (boxSize_gt_of_y (a := 10) (b := yb)
        (pairMinY_le_l1y1 ⟨1, 10, 10, 10 + t, 10, true, false⟩ ⟨1, 10, yb - t, 10, yb, false, true⟩)
        (le_pairMaxY_l2y2 ⟨1, 10, 10, 10 + t, 10, true, false⟩ ⟨1, 10, yb - t, 10, yb, false, true⟩) (by linarith))
  have h07 : cropMarkOfPair 0 7 ⟨1, 10, 10, 10 + t, 10, true, false⟩ ⟨1, 490, yb - t, 490, yb, false, true⟩ = none :=
    cropMarkOfPair_none_of_wide 0 7 _ _
      (boxSize_gt_of_x (a := 10) (b := 490)
        (pairMinX_le_l1x1 ⟨1, 10, 10, 10 + t, 10, true, false⟩ ⟨1, 490, yb - t, 490, yb, false, true⟩)
        (le_pairMaxX_l2x1 ⟨1, 10, 10, 10 + t, 10, true, false⟩ ⟨1, 490, yb - t, 490, yb, false, true⟩) (by linarith))
  have h12 : cropMarkOfPair 1 2 ⟨1, 10, 10, 10, 10 + t, false, true⟩ ⟨1, 490 - t, 10, 490, 10, true, false⟩ = none :=
    cropMarkOfPair_none_of_wide 1 2 _ _
      (boxSize_gt_of_x (a := 10) (b := 490)
        (pairMinX_le_l1x1 ⟨1, 10, 10, 10, 10 + t, false, true⟩ ⟨1, 490 - t, 10, 490, 10, true, false⟩)
        (le_pairMaxX_l2x2 ⟨1, 10, 10, 10, 10 + t, false, true⟩ ⟨1, 490 - t, 10, 490, 10, true, false⟩) (by linarith))
  have h14 : cropMarkOfPair 1 4 ⟨1, 10, 10, 10, 10 + t, false, true⟩ ⟨1, 10, yb, 10 + t, yb, true, false⟩ = none :=
    cropMarkOfPair_none_of_wide 1 4 _ _
      (boxSize_gt_of_y (a := 10) (b := yb)
        (pairMinY_le_l1y1 ⟨1, 10, 10, 10, 10 + t, false, true⟩ ⟨1, 10, yb, 10 + t, yb, true, false⟩)
        (le_pairMaxY_l2y1 ⟨1, 10, 10, 10, 10 + t, false, true⟩ ⟨1, 10, yb, 10 + t, yb, true, false⟩) (by linarith))
  have h16 : cropMarkOfPair 1 6 ⟨1, 10, 10, 10, 10 + t, false, true⟩ ⟨1, 490 - t, yb, 490, yb, true, false⟩ = none :=
    cropMarkOfPair_none_of_wide 1 6 _ _
      (boxSize_gt_of_x (a := 10) (b := 490)
        (pairMinX_le_l1x1 ⟨1, 10, 10, 10, 10 + t, false, true⟩ ⟨1, 490 - t, yb, 490, yb, true, false⟩)
        (le_pairMaxX_l2x2 ⟨1, 10, 10, 10, 10 + t, false, true⟩ ⟨1, 490 - t, yb, 490, yb, true, false⟩) (by linarith))
  have h25 : cropMarkOfPair 2 5 ⟨1, 490 - t, 10, 490, 10, true, false⟩ ⟨1, 10, yb - t, 10, yb, false, true⟩ = none :=
    cropMarkOfPair_none_of_wide 2 5 _ _
      (boxSize_gt_of_x (a := 10) (b := 490)
        (pairMinX_le_l2x1 ⟨1, 490 - t, 10, 490, 10, true, false⟩ ⟨1, 10, yb - t, 10, yb, false, true⟩)
        (le_pairMaxX_l1x2 ⟨1, 490 - t, 10, 490, 10, true, false⟩ ⟨1, 10, yb - t, 10, yb, false, true⟩) (by linarith))
  have h27 : cropMarkOfPair 2 7 ⟨1, 490 - t, 10, 490, 10, true, false⟩ ⟨1, 490, yb - t, 490, yb, false, true⟩ = none :=
    cropMarkOfPair_none_of_wide 2 7 _ _
      (boxSize_gt_of_y (a := 10) (b := yb)
        (pairMinY_le_l1y1 ⟨1, 490 - t, 10, 490, 10, true, false⟩ ⟨1, 490, yb - t, 490, yb, false, true⟩)
        (le_pairMaxY_l2y2 ⟨1, 490 - t, 10, 490, 10, true, false⟩ ⟨1, 490, yb - t, 490, yb, false, true⟩) (by linarith))
  have h34 : cropMarkOfPair 3 4 ⟨1, 490, 10, 490, 10 + t, false, true⟩ ⟨1, 10, yb, 10 + t, yb, true, false⟩ = none :=
    cropMarkOfPair_none_of_wide 3 4 _ _
      (boxSize_gt_of_x (a := 10) (b := 490)
        (pairMinX_le_l2x1 ⟨1, 490, 10, 490, 10 + t, false, true⟩ ⟨1, 10, yb, 10 + t, yb, true, false⟩)
        (le_pairMaxX_l1x1 ⟨1, 490, 10, 490, 10 + t, false, true⟩ ⟨1, 10, yb, 10 + t, yb, true, false⟩) (by linarith))
  have h36 : cropMarkOfPair 3 6 ⟨1, 490, 10, 490, 10 + t, false, true⟩ ⟨1, 490 - t, yb, 490, yb, true, false⟩ = none :=
    cropMarkOfPair_none_of_wide 3 6 _ _
      (boxSize_gt_of_y (a := 10) (b := yb)
        (pairMinY_le_l1y1 ⟨1, 490, 10, 490, 10 + t, false, true⟩ ⟨1, 490 - t, yb, 490, yb, true, false⟩)
        (le_pairMaxY_l2y1 ⟨1, 490, 10, 490, 10 + t, false, true⟩ ⟨1, 490 - t, yb, 490, yb, true, false⟩) (by linarith))
  have h47 : cropMarkOfPair 4 7 ⟨1, 10, yb, 10 + t, yb, true, false⟩ ⟨1, 490, yb - t, 490, yb, false, true⟩ = none :=
    cropMarkOfPair_none_of_wide 4 7 _ _
      (boxSize_gt_of_x (a := 10) (b := 490)
        (pairMinX_le_l1x1 ⟨1, 10, yb, 10 + t, yb, true, false⟩ ⟨1, 490, yb - t, 490, yb, false, true⟩)
        (le_pairMaxX_l2x1 ⟨1, 10, yb, 10 + t, yb, true, false⟩ ⟨1, 490, yb - t, 490, yb, false, true⟩) (by linarith))
  have h56 : cropMarkOfPair 5 6 ⟨1, 10, yb - t, 10, yb, false, true⟩ ⟨1, 490 - t, yb, 490, yb, true, false⟩ = none :=
    cropMarkOfPair_none_of_wide 5 6 _ _
      (boxSize_gt_of_x (a := 10) (b := 490)
        (pairMinX_le_l1x1 ⟨1, 10, yb - t, 10, yb, false, true⟩ ⟨1, 490 - t, yb, 490, yb, true, false⟩)
        (le_pairMaxX_l2x2 ⟨1, 10, yb - t, 10, yb, false, true⟩ ⟨1, 490 - t, yb, 490, yb, true, false⟩) (by linarith))
  simp only [cropMarksOf, cropTicksGen, enumIdx, allPairs, List.map_cons,
    List.map_nil, List.nil_append, List.cons_append, List.append_nil,
    List.filterMap_cons, List.filterMap_nil,
    h01, h23, h45, h67, h02, h04, h06, h24, h26, h46, h13, h15, h17, h35, h37, h57, h03, h05, h07, h12, h14, h16, h25, h27, h34, h36, h47, h56]

/-- Dropping the indices of `enumIdx` recovers the list. -/
theorem enumIdx_map_snd {β : Type} (n : ℕ) (l : List β) :
    (enumIdx n l).map Prod.snd = l := by
  induction l generalizing n with
  | nil => simp [enumIdx]
  | cons x xs ih => simp [enumIdx, ih]

/-- With no rectangles there are no bleed-mark groups. -/
theorem rectangleGroups_nil (ph : ℝ) :
    rectangleGroups ph ([] : List (PDFRectangle ℝ)) = [] := by
  simp [rectangleGroups, enumIdx, clusters]

/-- With no rectangles no lines are marked for removal. -/
theorem linesToRemove_nil_rects (pw ph : ℝ) (lines : List (PDFLine ℝ)) :
    linesToRemove pw ph [] lines = [] := by
  simp [linesToRemove, rectangleGroups_nil]

/-- With no rectangles STEP 1 passes the lines through unchanged. -/
theorem filteredLines_nil_rects (pw ph : ℝ) (lines : List (PDFLine ℝ)) :
    filteredLines pw ph [] lines = lines := by
  unfold filteredLines
  rw [linesToRemove_nil_rects]
  have h : ((enumIdx 0 lines).filter
      (fun p => !([] : List ℕ).contains p.1)) = enumIdx 0 lines :=
    List.filter_eq_self.mpr (by intro a _; simp)
  rw [h, enumIdx_map_snd]

/-- STEP 1 of an empty rectangle list is empty. -/
theorem filteredRectangles_nil (ph : ℝ) :
    filteredRectangles ph ([] : List (PDFRectangle ℝ)) = [] := by
  simp [filteredRectangles, enumIdx]

/-- The extracted-elements value for the synthetic crop-tick page: a
successful extraction of a `500 x 700`pt page containing only the eight
tick lines and no rectangles (no bleed-mark clusters). -/
def cropTicksInput (t yb : ℝ) : PDFElements ℝ :=
  { success := true, errorMessage := "", textLines := [], images := []
    rectangles := [], graphicLines := cropTicksGen t yb
    rectangleCount := 0, graphicLineCount := 8
    linesBoundingBoxX := 0, linesBoundingBoxY := 0
    linesBoundingBoxWidth := 0, linesBoundingBoxHeight := 0
    pageX := 0, pageY := 0, pageWidth := 500, pageHeight := 700 }

/-- On the synthetic tick page the selected crop marks are exactly the four
corner points (no surplus, so the quadrant reduction is skipped). -/
theorem selectedCropMarks_cropTicks (t yb : ℝ) (h1 : 1 ≤ t) (h50 : t ≤ 50)
    (hyb : 70 ≤ yb) :
    selectedCropMarks (cropTicksInput t yb) =
      [⟨0, 1, 10, 10⟩, ⟨2, 3, 490, 10⟩, ⟨4, 5, 10, yb⟩, ⟨6, 7, 490, yb⟩] := by
  unfold selectedCropMarks
  simp only [cropTicksInput]
  rw [filteredLines_nil_rects, cropMarksOf_cropTicksGen t yb h1 h50 hyb]
  simp [reduceToFourMarks]

/-- C1: for every tick length `t ∈ [1, 50]`, an input whose surviving line
set consists of exactly the four synthetic L-shaped perpendicular tick
pairs meeting at `(10,10)`, `(490,10)`, `(10,690)`, `(490,690)` on a
`500 x 700`pt page, with no bleed-mark rectangle clusters, makes
`stripBleedMarks` succeed with the crop box `x=10, y=10, width=480,
height=680`. -/
theorem stripBleedMarksFrom_cropTicks_success (t : ℝ) (h1 : 1 ≤ t)
    (h50 : t ≤ 50) :
    (stripBleedMarksFrom (cropTicksInput t 690)).success = true ∧
    (stripBleedMarksFrom (cropTicksInput t 690)).pageX = 10 ∧
    (stripBleedMarksFrom (cropTicksInput t 690)).pageY = 10 ∧
    (stripBleedMarksFrom (cropTicksInput t 690)).pageWidth = 480 ∧
    (stripBleedMarksFrom (cropTicksInput t 690)).pageHeight = 680 := by
  have hsel := selectedCropMarks_cropTicks t 690 h1 h50 (by norm_num)
  unfold stripBleedMarksFrom
  rw [hsel]
  simp only [cropTicksInput]
  rw [filteredLines_nil_rects,
    cropMarksOf_cropTicksGen t 690 h1 h50 (by norm_num)]
  norm_num [marksMinX, marksMaxX, marksMinY, marksMaxY, List.min?, List.max?,
    List.foldl, min_def, max_def]

/-- C5: whenever the crop box computed from the 4 selected crop marks has
width or height below 100pt, `stripBleedMarks` returns the
crop-box-too-small failure: `success = false`, a non-empty error message,
and no crop box or filtered element sets installed (the result is the
default-initialised record with only the message set). -/
theorem stripBleedMarks_rejects_small_cropbox (e : PDFElements ℝ)
    (hs : e.success = true)
    (h4 : (selectedCropMarks e).length = 4)
    (hsmall :
      marksMaxX (selectedCropMarks e) - marksMinX (selectedCropMarks e) < 100 ∨
      marksMaxY (selectedCropMarks e) - marksMinY (selectedCropMarks e) < 100) :
    stripBleedMarksFrom e =
      { emptyPDFElements with
        errorMessage := "Detected crop box is too small" } ∧
    (stripBleedMarksFrom e).success = false ∧
    (stripBleedMarksFrom e).errorMessage ≠ "" ∧
    (stripBleedMarksFrom e).pageX = 0 ∧
    (stripBleedMarksFrom e).pageY = 0 ∧
    (stripBleedMarksFrom e).pageWidth = 0 ∧
    (stripBleedMarksFrom e).pageHeight = 0 ∧
    (stripBleedMarksFrom e).rectangles = [] ∧
    (stripBleedMarksFrom e).graphicLines = [] := by
  have hcm4 : ¬((cropMarksOf (filteredLines e.pageWidth e.pageHeight
      e.rectangles e.graphicLines)).length < 4) := by
    intro hlt
    have h4' := h4
    unfold selectedCropMarks reduceToFourMarks at h4'
    rw [if_neg (by omega)] at h4'
    omega
  have hmain : stripBleedMarksFrom e =
      { emptyPDFElements with
        errorMessage := "Detected crop box is too small" } := by
    simp only [stripBleedMarksFrom]
    rw [if_neg (by rw [hs]; simp)]
    rw [if_neg hcm4]
    rw [if_neg (by rw [h4]; norm_num)]
    rw [if_pos hsmall]
  refine ⟨hmain, ?_, ?_, ?_, ?_, ?_, ?_, ?_, ?_⟩ <;>
    rw [hmain] <;> simp [emptyPDFElements]

/-- Witness for C5: the four corner ticks placed at
`(10,10), (490,10), (10,70), (490,70)` yield a `480 x 60` crop box, whose
height is below 100pt, so the whole detection is rejected. -/
theorem stripBleedMarks_rejects_small_cropbox_witness :
    stripBleedMarksFrom (cropTicksInput 5 70) =
      { emptyPDFElements with
        errorMessage := "Detected crop box is too small" } ∧
    (stripBleedMarksFrom (cropTicksInput 5 70)).success = false ∧
    (stripBleedMarksFrom (cropTicksInput 5 70)).errorMessage ≠ "" ∧
    (stripBleedMarksFrom (cropTicksInput 5 70)).pageX = 0 ∧
    (stripBleedMarksFrom (cropTicksInput 5 70)).pageY = 0 ∧
    (stripBleedMarksFrom (cropTicksInput 5 70)).pageWidth = 0 ∧
    (stripBleedMarksFrom (cropTicksInput 5 70)).pageHeight = 0 ∧
    (stripBleedMarksFrom (cropTicksInput 5 70)).rectangles = [] ∧
    (stripBleedMarksFrom (cropTicksInput 5 70)).graphicLines = [] :=
  stripBleedMarks_rejects_small_cropbox (cropTicksInput 5 70) rfl
    (by rw [selectedCropMarks_cropTicks 5 70 (by norm_num) (by norm_num)
          (by norm_num)]; rfl)
    (Or.inr (by
      rw [selectedCropMarks_cropTicks 5 70 (by norm_num) (by norm_num)
        (by norm_num)]
      norm_num [marksMaxY, marksMinY, List.max?, List.min?, List.foldl,
        max_def, min_def]))

/-- Witness for C1: the theorem instantiated at tick length `t = 20`. -/
theorem stripBleedMarksFrom_cropTicks_success_witness :
    (stripBleedMarksFrom (cropTicksInput 20 690)).success = true ∧
    (stripBleedMarksFrom (cropTicksInput 20 690)).pageX = 10 ∧
    (stripBleedMarksFrom (cropTicksInput 20 690)).pageY = 10 ∧
    (stripBleedMarksFrom (cropTicksInput 20 690)).pageWidth = 480 ∧
    (stripBleedMarksFrom (cropTicksInput 20 690)).pageHeight = 680 :=
  stripBleedMarksFrom_cropTicks_success 20 (by norm_num) (by norm_num)

/-- Counterexample to C2: for the axis-aligned pair `(0,10)-(10,10)`
(horizontal) and `(5,0)-(5,8)` (vertical, lying strictly below), all tests
pass, the infinite-line intersection is `(5,10)`, but the recorded mark is
`(5,8)` — the code records the endpoint-heuristic point, not the computed
intersection. -/
theorem cropMark_differs_from_intersection :
    cropMarkOfPair 0 1 ⟨1, 0, 10, 10, 10, true, false⟩
        ⟨1, 5, 0, 5, 8, false, true⟩ = some ⟨0, 1, 5, 8⟩ ∧
    intersectionX ⟨1, 0, 10, 10, 10, true, false⟩
        ⟨1, 5, 0, 5, 8, false, true⟩ = 5 ∧
    intersectionY ⟨1, 0, 10, 10, 10, true, false⟩
        ⟨1, 5, 0, 5, 8, false, true⟩ = 10 ∧
    (8 : ℝ) ≠ 10 := by
  refine ⟨?_, ?_, ?_, by norm_num⟩
  · rw [cropMarkOfPair,
      normAngle_horiz rfl (show (0:ℝ) < 10 by norm_num),
      normAngle_vert rfl (show (0:ℝ) < 8 by norm_num)]
    norm_num [boxSizeOf, pairMinX, pairMaxX, pairMinY, pairMaxY, denomOf,
      cropPointOf, min_def, max_def]
  · norm_num [intersectionX, denomOf]
  · norm_num [intersectionY, denomOf]

/-- C2 (amended): every recorded candidate's `cropX` is the midpoint X of
the line playing the vertical role (the pair's second line exactly when
line 1 is flatter than it is wide), and for an axis-aligned pair whose
vertical line has an endpoint exactly on the horizontal line the recorded
point does agree with the determinant intersection of the two lines
extended to infinity; in general the intersection is computed only to
reject near-parallel pairs. -/
theorem cropMark_endpoint_policy :
    (∀ (i j : ℕ) (l1 l2 : PDFLine ℝ) (mk : CropMark),
        cropMarkOfPair i j l1 l2 = some mk →
        ((|l1.y2 - l1.y1| < |l1.x2 - l1.x1| →
            mk.cropX = (l2.x1 + l2.x2) / 2) ∧
         (¬(|l1.y2 - l1.y1| < |l1.x2 - l1.x1|) →
            mk.cropX = (l1.x1 + l1.x2) / 2))) ∧
    (∀ (i j : ℕ) (l1 l2 : PDFLine ℝ) (mk : CropMark),
        cropMarkOfPair i j l1 l2 = some mk →
        l1.y1 = l1.y2 → l2.x1 = l2.x2 →
        (l2.y1 = l1.y1 ∨ l2.y2 = l1.y1) →
        mk.cropX = intersectionX l1 l2 ∧ mk.cropY = intersectionY l1 l2) := by
  constructor
  · intro i j l1 l2 mk h
    rw [cropMarkOfPair] at h
    split_ifs at h
    all_goals cases h
    all_goals refine ⟨fun hhoriz => ?_, fun hhoriz => ?_⟩
    all_goals show (if |l1.y2 - l1.y1| < |l1.x2 - l1.x1| then
      cropPointOf l1 l2 else cropPointOf l2 l1).1 = _
    all_goals first
      | (rw [if_pos hhoriz]; rfl)
      | (rw [if_neg hhoriz]; rfl)
  · intro i j l1 l2 mk h hy vx htouch
    rw [cropMarkOfPair] at h
    split_ifs at h
    all_goals cases h
    all_goals rename_i hden
    all_goals
      have hdeq : denomOf l1 l2 = (l1.x1 - l1.x2) * (l2.y1 - l2.y2) := by
        rw [denomOf, hy, vx]; ring
      have hdne : denomOf l1 l2 ≠ 0 := by
        intro h0
        rw [h0] at hden
        exact hden (by norm_num)
      have hx12 : l1.x1 ≠ l1.x2 := by
        intro hc
        exact hdne (by rw [hdeq, hc]; ring)
      have hy12 : l2.y1 ≠ l2.y2 := by
        intro hc
        exact hdne (by rw [hdeq, hc]; ring)
      have hhoriz : |l1.y2 - l1.y1| < |l1.x2 - l1.x1| := by
        rw [hy, sub_self, abs_zero, abs_pos]
        intro hc
        exact hx12 (sub_eq_zero.mp hc).symm
      have hix : intersectionX l1 l2 = l2.x1 := by
        rw [intersectionX, hdeq, hy, vx]
        rw [div_eq_iff (hdeq ▸ hdne)]
        ring
      have hiy : intersectionY l1 l2 = l1.y1 := by
        rw [intersectionY, hdeq, hy, vx]
        rw [div_eq_iff (hdeq ▸ hdne)]
        ring
      have hpt : cropPointOf l1 l2 = (l2.x1, l1.y1) := by
        simp only [cropPointOf]
        have h1 : (l1.y1 + l1.y2) / 2 = l1.y1 := by rw [← hy]; ring
        have h2 : (l2.x1 + l2.x2) / 2 = l2.x1 := by rw [← vx]; ring
        rw [h1, h2]
        rcases htouch with ht | ht
        · rw [if_pos ⟨ht ▸ min_le_left _ _, ht ▸ le_max_left _ _⟩]
          rw [if_pos]
          · rw [ht]
          · rw [ht, sub_self, abs_zero, abs_pos]
            intro hc
            have hcc : l2.y2 = l1.y1 := by linarith [sub_eq_zero.mp hc]
            exact hy12 (ht.trans hcc.symm)
        · rw [if_pos ⟨ht ▸ min_le_right _ _, ht ▸ le_max_right _ _⟩]
          rw [if_neg]
          · rw [ht]
          · rw [ht, sub_self, abs_zero]
            exact not_lt.mpr (abs_nonneg _)
      refine ⟨?_, ?_⟩
      · show (if |l1.y2 - l1.y1| < |l1.x2 - l1.x1| then
          cropPointOf l1 l2 else cropPointOf l2 l1).1 = _
        rw [if_pos hhoriz, hpt, hix]
      · show (if |l1.y2 - l1.y1| < |l1.x2 - l1.x1| then
          cropPointOf l1 l2 else cropPointOf l2 l1).2 = _
        rw [if_pos hhoriz, hpt, hiy]

/-- Witness for C2 (amended): on a touching axis-aligned L at `(10,10)` the
recorded mark coincides with the determinant intersection. -/
theorem cropMark_endpoint_policy_witness :
    ((⟨0, 1, 10, 10⟩ : CropMark).cropX =
        intersectionX ⟨1, 10, 10, 10 + 20, 10, true, false⟩
          ⟨1, 10, 10, 10, 10 + 20, false, true⟩) ∧
    ((⟨0, 1, 10, 10⟩ : CropMark).cropY =
        intersectionY ⟨1, 10, 10, 10 + 20, 10, true, false⟩
          ⟨1, 10, 10, 10, 10 + 20, false, true⟩) :=
  cropMark_endpoint_policy.2 0 1
    ⟨1, 10, 10, 10 + 20, 10, true, false⟩
    ⟨1, 10, 10, 10, 10 + 20, false, true⟩
    ⟨0, 1, 10, 10⟩
    (cropMarkOfPair_tick_TL 0 1 10 10 20 (by norm_num) (by norm_num))
    rfl rfl (Or.inl rfl)

end CropMarkDetector

end OcrAnalysis
